import Mathlib

/-!
Timer and animation-frame bridging (bridge/bindings/KOM/timer.cc).

A shallow embedding of the timer bindings of the bridge: the four trampolines the host
calls back (`handlePersistentCallback`, `handleRAFPersistentCallback`,
`handleTransientCallback`, `handleRAFTransientCallback`) and the script-facing bindings
(`setTimeout`, `setInterval`, `clearTimeout`, `cancelAnimationFrame`,
`requestAnimationFrame`).

The engine (jsa.h), the callback registry (foundation/bridge_callback.h) and the host method
table (dart_methods.h) are only used by timer.cc, not defined in it.  What the code does to
them is recorded as a trace of effects in the order the code performs them; what they answer
is a parameter of the model.
-/

namespace kraken
namespace binding

/-! ## Values of the engine -/

/-- A C++ `double`: a finite value (an exact rational) or one of the non-finite values.
The sign of zero is not represented; no code below looks at it. -/
inductive Double where
  | finite (q : ℚ)
  | posInf
  | negInf
  | nan
  deriving DecidableEq

/-- The value of an `int32_t` as a `double` (the conversion done by `Value(timerId)`). -/
def Double.ofInt32 (i : Int) : Double := Double.finite (i : ℚ)

/-- Whether an integer is a value of `int32_t`. -/
def inInt32 (i : Int) : Bool := decide (-2147483648 ≤ i) && decide (i ≤ 2147483647)

/-- The integer part of a finite `double`, rounded toward zero. -/
def truncQ (q : ℚ) : Int := Int.tdiv q.num (q.den : Int)

/-- The conversion `double → int32_t` where the language defines it: the value truncated
toward zero, when that fits `int32_t`. -/
def Double.truncInt32? : Double → Option Int
  | Double.finite q => if inInt32 (truncQ q) then some (truncQ q) else none
  | _ => none

/-- A script object as far as timer.cc looks at it: its identity and the answer of
`Object::isFunction`. -/
structure JSObject where
  id : Nat
  isFunction : Bool
  deriving DecidableEq

/-- A script value (`alibaba::jsa::Value`). -/
inductive Value where
  | undefined
  | null
  | bool (b : Bool)
  | number (d : Double)
  | string (s : String)
  | object (o : JSObject)
  deriving DecidableEq

/-- The test `Value::isUndefined`. -/
def Value.isUndefined : Value → Bool
  | Value.undefined => true
  | _ => false

/-- The test `Value::isObject`. -/
def Value.isObject : Value → Bool
  | Value.object _ => true
  | _ => false

/-- The accessor `Value::getObject`: the object held by the value, if it holds one. -/
def Value.getObject : Value → Option JSObject
  | Value.object o => some o
  | _ => none

/-- The accessor `Value::getNumber` (also `asNumber`): the number held by the value; it
answers exactly when `Value::isNumber` holds. -/
def Value.getNumber : Value → Option Double
  | Value.number d => some d
  | _ => none

/-- The condition `args->isObject() && args->getObject(context).isFunction(context)`, whose
negation guards the scheduling bindings. -/
def Value.isFunctionObject (v : Value) : Bool :=
  v.isObject && (match v.getObject with
    | some o => o.isFunction
    | none => false)

/-- The chain `getObject(_context)` then `asFunction(_context)` of the trampolines: the
function held by a value.  Both accessors are declared in jsa.h; on a value that holds no
function there is nothing to call, which is `none` here. -/
def Value.asFunction (v : Value) : Option JSObject :=
  match v.getObject with
  | some o => if o.isFunction then some o else none
  | none => none

/-! ## Contexts, callback records and the world -/

/-- A reference to a `JSContext` object (`JSContext &`). -/
abbrev CtxRef := Nat

/-- The state of a `JSContext` that timer.cc reads: `isValid()`, `isFreeze()` and
`getContextIndex()`. -/
structure JSContext where
  valid : Bool
  freeze : Bool
  contextIndex : Int
  deriving DecidableEq

/-- The callback record `BridgeCallback::Context`: the owning context `_context` and the
stored callback `_callback`, a shared pointer that may be null (`none`). -/
structure BridgeCallbackContext where
  _context : CtxRef
  _callback : Option Value
  deriving DecidableEq

/-- The trampolines, as the function pointers handed to the host. -/
inductive Trampoline where
  | handlePersistentCallback
  | handleTransientCallback
  | handleRAFPersistentCallback
  | handleRAFTransientCallback
  deriving DecidableEq

/-- What the code does to its collaborators, one entry per statement of timer.cc that reaches
outside it.
* `log`: a `KRAKEN_LOG(ERROR)` line;
* `reportError`: `_context.reportError(JSError(_context, message))`, the error channel;
* `call`: `callback.asFunction(_context).call(_context, first, second)`, with the two operands
  as written in the source;
* `dartSetTimeout`, `dartSetInterval`, `dartRequestAnimationFrame`: the host scheduling entry
  points of `getDartMethod()`, with the arguments passed;
* `dartClearTimeout`, `dartCancelAnimationFrame`: the host cancel entry points. -/
inductive Effect where
  | log (message : String)
  | reportError (context : CtxRef) (message : String)
  | call (context : CtxRef) (callback : JSObject) (first : Value) (second : Int)
  | dartSetTimeout (callbackContext : BridgeCallbackContext) (contextIndex : Int)
      (handler : Trampoline) (timeout : Int)
  | dartSetInterval (callbackContext : BridgeCallbackContext) (contextIndex : Int)
      (handler : Trampoline) (delay : Int)
  | dartRequestAnimationFrame (callbackContext : BridgeCallbackContext) (contextIndex : Int)
      (handler : Trampoline)
  | dartClearTimeout (contextIndex : Int) (id : Int)
  | dartCancelAnimationFrame (contextIndex : Int) (id : Int)
  deriving DecidableEq

/-- The state the bindings run in.
* `contexts`: the `JSContext` objects, by reference;
* `checkContext`: the answer of `BridgeCallback::checkContext(_context, contextIndex)`, a
  function of foundation/bridge_callback.h that is not part of timer.cc;
* `contextList`: the records held by the registry `BridgeCallback::instance()`, in the order
  they were registered;
* `trace`: the effects performed so far, oldest first. -/
structure World where
  contexts : CtxRef → JSContext
  checkContext : CtxRef → Int → Bool
  contextList : List BridgeCallbackContext
  trace : List Effect

/-- Append one effect to the trace. -/
def World.emit (w : World) (e : Effect) : World :=
  { w with trace := w.trace ++ [e] }

/-- How a C++ function ends: it returns, or a `JSError` with the given message leaves it.
`notCallable` stands for the failure inside the engine when `asFunction` is applied to a value
that holds no function. -/
inductive Completion (α : Type) where
  | returned (a : α)
  | threw (message : String)
  | notCallable
  deriving DecidableEq

/-! ## The trampolines -/

/-- The trampoline `handlePersistentCallback(callbackContext, contextIndex, errmsg)`; `obj` is
the record `callbackContext` points to and `errmsg = none` is the null pointer. -/
def handlePersistentCallback (w : World) (obj : BridgeCallbackContext) (contextIndex : Int)
    (errmsg : Option String) : World × Completion Unit :=
  if !w.checkContext obj._context contextIndex then
    (w, Completion.returned ())
  else if !(w.contexts obj._context).valid then
    (w, Completion.returned ())
  else if (w.contexts obj._context).freeze then
    (w.emit (Effect.log "Failed to trigger callback: timer callback is null."),
      Completion.returned ())
  else
    match obj._callback with
    | none =>
      (w.emit (Effect.reportError obj._context
        "Failed to trigger callback: timer callback is null."), Completion.returned ())
    | some callback =>
      match errmsg with
      | some msg => (w.emit (Effect.reportError obj._context msg), Completion.returned ())
      | none =>
        match callback.asFunction with
        | some fn =>
          (w.emit (Effect.call obj._context fn Value.undefined 0), Completion.returned ())
        | none => (w, Completion.notCallable)

/-- The trampoline `handleRAFPersistentCallback(callbackContext, contextIndex, result,
errmsg)`. -/
def handleRAFPersistentCallback (w : World) (obj : BridgeCallbackContext) (contextIndex : Int)
    (result : Double) (errmsg : Option String) : World × Completion Unit :=
  if !w.checkContext obj._context contextIndex then
    (w, Completion.returned ())
  else if !(w.contexts obj._context).valid then
    (w, Completion.returned ())
  else if (w.contexts obj._context).freeze then
    (w.emit (Effect.log "Failed to trigger callback: context is freeze"),
      Completion.returned ())
  else
    match obj._callback with
    | none =>
      (w.emit (Effect.reportError obj._context
        "Failed to trigger callback: requestAnimationFrame callback is null."),
        Completion.returned ())
    | some callback =>
      match errmsg with
      | some msg => (w.emit (Effect.reportError obj._context msg), Completion.returned ())
      | none =>
        match callback.asFunction with
        | some fn =>
          (w.emit (Effect.call obj._context fn (Value.number result) 0),
            Completion.returned ())
        | none => (w, Completion.notCallable)

/-- The trampoline `handleTransientCallback`: it calls `handlePersistentCallback`. -/
def handleTransientCallback (w : World) (obj : BridgeCallbackContext) (contextIndex : Int)
    (errmsg : Option String) : World × Completion Unit :=
  handlePersistentCallback w obj contextIndex errmsg

/-- The trampoline `handleRAFTransientCallback`: it calls `handleRAFPersistentCallback`. -/
def handleRAFTransientCallback (w : World) (obj : BridgeCallbackContext) (contextIndex : Int)
    (result : Double) (errmsg : Option String) : World × Completion Unit :=
  handleRAFPersistentCallback w obj contextIndex result errmsg

/-! ## The host and the registry -/

/-- The value of an integer as an `int32_t` (two's complement wrap-around). -/
def wrapInt32 (i : Int) : Int := (i + 2147483648) % 4294967296 - 2147483648

/-- The method table `getDartMethod()`.  A scheduling entry point that is registered is the
function giving the `int32_t` it returns, from the effects performed before the call and the
arguments of the call; `none` is the null pointer.  The cancel entry points return nothing, so
only whether they are registered is kept. -/
structure DartMethods where
  setTimeout : Option (List Effect → BridgeCallbackContext → Int → Trampoline → Int → Int)
  setInterval : Option (List Effect → BridgeCallbackContext → Int → Trampoline → Int → Int)
  requestAnimationFrame : Option (List Effect → BridgeCallbackContext → Int → Trampoline → Int)
  clearTimeout : Bool
  cancelAnimationFrame : Bool

/-- What the bindings take from outside the program: the host method table, and the result of
converting a `double` to `int32_t` where the language leaves the conversion undefined (not
finite, or out of range). -/
structure Platform where
  dartMethod : DartMethods
  outOfRangeCast : Double → Int

/-- The conversion `double → int32_t` (`timeout = time.getNumber()`,
`static_cast<int32_t>(timerId.asNumber())`). -/
def Platform.toInt32 (p : Platform) (d : Double) : Int :=
  match d.truncInt32? with
  | some i => i
  | none => wrapInt32 (p.outOfRangeCast d)

/-- The index the registry assigns to the next record it stores: the position the record
takes in the registry. -/
def World.nextIndex (w : World) : Int := (w.contextList.length : Int)

/-- Modelled from the spec: `BridgeCallback::registerCallback` of
foundation/bridge_callback.h, which timer.cc calls and does not define.  The registry takes
ownership of the record, assigns it a fresh index and stores it (spec 4.1, `register`); the
request `fn` is run on the record and that index (spec 4.3 c, "passing the index"); the
result is the index, which is the handle for script (spec 4.3 d), or the failure sentinel `-1`
when the request reports it (spec 4.3, last item, and spec 6).  The record stays registered in
both cases. -/
def registerCallback (w : World) (callbackContext : BridgeCallbackContext)
    (fn : World → BridgeCallbackContext → Int → World × Int) : World × Int :=
  let index : Int := w.nextIndex
  let r := fn { w with contextList := w.contextList ++ [callbackContext] } callbackContext index
  (r.1, if r.2 = -1 then -1 else index)

/-! ## The script-facing bindings -/

/-- The binding `setTimeout(context, thisVal, args, count)`.  `args` is the memory the pointer
`args` addresses (`args i` is `args[i]`, also beyond `count`). -/
def setTimeout (p : Platform) (w : World) (context : CtxRef) (_thisVal : Value)
    (args : Nat → Value) (count : Nat) : World × Completion Value :=
  if count < 1 then
    (w, Completion.threw
      "Failed to execute 'setTimeout': 1 argument required, but only 0 present.")
  else if !(args 0).isFunctionObject then
    (w, Completion.threw
      "Failed to execute 'setTimeout': parameter 1 (callback) must be a function.")
  else if (w.contexts context).freeze then
    (w.emit (Effect.log "Failed to execute 'setTimeout': context is freeze"),
      Completion.returned Value.undefined)
  else
    let callbackValue : Value := args 0
    let time : Value := args 1
    let timeout : Option Int :=
      if time.isUndefined || decide (count < 2) then some 0
      else match time.getNumber with
        | some d => some (p.toInt32 d)
        | none => none
    match timeout with
    | none =>
      (w, Completion.threw
        "Failed to execute 'setTimeout': parameter 2 (timeout) only can be a number or undefined.")
    | some timeout =>
      match p.dartMethod.setTimeout with
      | none =>
        (w, Completion.threw
          "Failed to execute 'setTimeout': dart method (setTimeout) is not registered.")
      | some dartSetTimeout =>
        let callbackContext : BridgeCallbackContext := ⟨context, some callbackValue⟩
        let r := registerCallback w callbackContext (fun w1 callbackContext contextIndex =>
          ((w1.emit (Effect.dartSetTimeout callbackContext contextIndex
              Trampoline.handleTransientCallback timeout)),
            wrapInt32 (dartSetTimeout w1.trace callbackContext contextIndex
              Trampoline.handleTransientCallback timeout)))
        let timerId : Int := r.2
        if timerId = -1 then
          (r.1, Completion.threw
            "Failed to execute 'setTimeout': dart method (setTimeout) execute failed")
        else
          (r.1, Completion.returned (Value.number (Double.ofInt32 timerId)))

/-- The binding `setInterval(context, thisVal, args, count)`. -/
def setInterval (p : Platform) (w : World) (context : CtxRef) (_thisVal : Value)
    (args : Nat → Value) (count : Nat) : World × Completion Value :=
  if count < 1 then
    (w, Completion.threw
      "Failed to execute 'setInterval': 1 argument required, but only 0 present.")
  else if !(args 0).isFunctionObject then
    (w, Completion.threw
      "Failed to execute 'setInterval': parameter 1 (callback) must be a function.")
  else if (w.contexts context).freeze then
    (w.emit (Effect.log "Failed to execute 'setInterval': context is freeze"),
      Completion.returned Value.undefined)
  else
    let callbackValue : Value := args 0
    if !(match callbackValue.getObject with
        | some callbackFunction => callbackFunction.isFunction
        | none => false) then
      (w, Completion.threw
        "Failed to execute 'setInterval': parameter 1 (callback) must be a function.")
    else
      let time : Value := args 1
      let delay : Option Int :=
        if time.isUndefined then some 0
        else match time.getNumber with
          | some d => some (p.toInt32 d)
          | none => none
      match delay with
      | none =>
        (w, Completion.threw
          "Failed to execute 'setInterval': parameter 2 (timeout) only can be a number or undefined.")
      | some delay =>
        match p.dartMethod.setInterval with
        | none =>
          (w, Completion.threw
            "Failed to execute 'setInterval': dart method (setInterval) is not registered.")
        | some dartSetInterval =>
          let callbackContext : BridgeCallbackContext := ⟨context, some callbackValue⟩
          let r := registerCallback w callbackContext (fun w1 callbackContext contextIndex =>
            ((w1.emit (Effect.dartSetInterval callbackContext contextIndex
                Trampoline.handlePersistentCallback delay)),
              wrapInt32 (dartSetInterval w1.trace callbackContext contextIndex
                Trampoline.handlePersistentCallback delay)))
          let timerId : Int := r.2
          if timerId = -1 then
            (r.1, Completion.threw
              "Failed to execute 'setInterval': dart method (setInterval) got unexpected error.")
          else
            (r.1, Completion.returned (Value.number (Double.ofInt32 timerId)))

/-- The binding `clearTimeout(context, thisVal, args, count)`, also bound as
`clearInterval`. -/
def clearTimeout (p : Platform) (w : World) (context : CtxRef) (_thisVal : Value)
    (args : Nat → Value) (count : Nat) : World × Completion Value :=
  if count ≤ 0 then
    (w, Completion.threw
      "Failed to execute 'clearTimeout': 1 argument required, but only 0 present.")
  else if (w.contexts context).freeze then
    (w.emit (Effect.log "Failed to execute 'clearTimeout': context is freeze"),
      Completion.returned Value.undefined)
  else
    let timerId : Value := args 0
    match timerId.getNumber with
    | none =>
      (w, Completion.threw
        "Failed to execute 'clearTimeout': parameter 1  is not an timer kind.")
    | some d =>
      let id : Int := p.toInt32 d
      if !p.dartMethod.clearTimeout then
        (w, Completion.threw
          "Failed to execute 'clearTimeout': dart method (clearTimeout) is not registered.")
      else
        (w.emit (Effect.dartClearTimeout (w.contexts context).contextIndex id),
          Completion.returned Value.undefined)

/-- The binding `cancelAnimationFrame(context, thisVal, args, count)`. -/
def cancelAnimationFrame (p : Platform) (w : World) (context : CtxRef) (_thisVal : Value)
    (args : Nat → Value) (count : Nat) : World × Completion Value :=
  if count ≤ 0 then
    (w, Completion.threw
      "Failed to execute 'cancelAnimationFrame': 1 argument required, but only 0 present.")
  else if (w.contexts context).freeze then
    (w.emit (Effect.log "Failed to execute 'cancelAnimationFrame': context is freeze"),
      Completion.returned Value.undefined)
  else
    let requestId : Value := args 0
    match requestId.getNumber with
    | none =>
      (w, Completion.threw
        "Failed to execute 'cancelAnimationFrame': parameter 1 (timer) is not a timer kind.")
    | some d =>
      let id : Int := p.toInt32 d
      if !p.dartMethod.cancelAnimationFrame then
        (w, Completion.threw
          "Failed to execute 'cancelAnimationFrame': dart method (cancelAnimationFrame) is not registered.")
      else
        (w.emit (Effect.dartCancelAnimationFrame (w.contexts context).contextIndex id),
          Completion.returned Value.undefined)

/-- The binding `requestAnimationFrame(context, thisVal, args, count)`, bound under the global
name `__kraken_request_animation_frame__`. -/
def requestAnimationFrame (p : Platform) (w : World) (context : CtxRef) (_thisVal : Value)
    (args : Nat → Value) (count : Nat) : World × Completion Value :=
  if count ≤ 0 then
    (w, Completion.threw
      "Failed to execute 'requestAnimationFrame': 1 argument required, but only 0 present.")
  else if !(args 0).isFunctionObject then
    (w, Completion.threw
      "Failed to execute 'requestAnimationFrame': parameter 1 (callback) must be a function.")
  else if (w.contexts context).freeze then
    (w.emit (Effect.log "Failed to execute 'requestAnimationFrame': context is freeze"),
      Completion.returned Value.undefined)
  else
    let callbackValue : Value := args 0
    let callbackContext : BridgeCallbackContext := ⟨context, some callbackValue⟩
    match p.dartMethod.requestAnimationFrame with
    | none =>
      (w, Completion.threw
        "Failed to execute 'requestAnimationFrame': dart method (requestAnimationFrame) is not registered.")
    | some dartRequestAnimationFrame =>
      let r := registerCallback w callbackContext (fun w1 callbackContext contextIndex =>
        ((w1.emit (Effect.dartRequestAnimationFrame callbackContext contextIndex
            Trampoline.handleRAFTransientCallback)),
          wrapInt32 (dartRequestAnimationFrame w1.trace callbackContext contextIndex
            Trampoline.handleRAFTransientCallback)))
      let requestId : Int := r.2
      if requestId = -1 then
        (r.1, Completion.threw
          "Failed to execute 'requestAnimationFrame': dart method (requestAnimationFrame) executed with unexpected error.")
      else
        (r.1, Completion.returned (Value.number (Double.ofInt32 requestId)))

/-! ## Reading a trace -/

/-- Whether an effect is an invocation of a script function. -/
def Effect.isCall : Effect → Bool
  | Effect.call _ _ _ _ => true
  | _ => false

/-- Whether an effect is a report to a context's error channel. -/
def Effect.isReportError : Effect → Bool
  | Effect.reportError _ _ => true
  | _ => false

/-- Whether an effect is a call of a host scheduling entry point. -/
def Effect.isDartSchedule : Effect → Bool
  | Effect.dartSetTimeout _ _ _ _ => true
  | Effect.dartSetInterval _ _ _ _ => true
  | Effect.dartRequestAnimationFrame _ _ _ => true
  | _ => false

/-- Whether an effect is the invocation of the given script function. -/
def Effect.isCallOf (fn : JSObject) : Effect → Bool
  | Effect.call _ callback _ _ => decide (callback = fn)
  | _ => false

/-- The invocations of script functions recorded in a trace. -/
def invocations (t : List Effect) : List Effect := t.filter Effect.isCall

/-- The reports to the error channel recorded in a trace. -/
def errorReports (t : List Effect) : List Effect := t.filter Effect.isReportError

/-- The calls of host scheduling entry points recorded in a trace. -/
def dartSchedules (t : List Effect) : List Effect := t.filter Effect.isDartSchedule

/-- How many times a trace invokes the script function `fn`. -/
def timesInvoked (fn : JSObject) (t : List Effect) : Nat := t.countP (Effect.isCallOf fn)

/-! ## Invoking a trampoline through its pointer -/

/-- The host calling a trampoline through the function pointer it was handed.  The timer
trampolines take no `result`; the animation-frame trampolines take it as third argument. -/
def invokeTrampoline (t : Trampoline) (w : World) (obj : BridgeCallbackContext)
    (contextIndex : Int) (result : Double) (errmsg : Option String) :
    World × Completion Unit :=
  match t with
  | Trampoline.handlePersistentCallback => handlePersistentCallback w obj contextIndex errmsg
  | Trampoline.handleTransientCallback => handleTransientCallback w obj contextIndex errmsg
  | Trampoline.handleRAFPersistentCallback =>
    handleRAFPersistentCallback w obj contextIndex result errmsg
  | Trampoline.handleRAFTransientCallback =>
    handleRAFTransientCallback w obj contextIndex result errmsg

/-- Modelled from the spec: the result value an operand of `Function::call` carries.
`Function::call` is declared in jsa.h, which is not among the sources.  Spec 4.2 step 6 has
the callback invoked "with the primitive's result value (none for timers; a numeric timestamp
for animation frames)": `Value::undefined()` is no result value, any other value is the result
value. -/
def resultValue : Value → Option Value
  | Value.undefined => none
  | v => some v

/-- Modelled from the spec: the arguments a script function receives from
`call(_context, first, 0)`: the result value the operand carries, when it carries one (spec
4.2 step 6). -/
def scriptArguments (first : Value) : List Value := (resultValue first).toList

/-- The invocations of script functions recorded in a trace, oldest first: the function
invoked and the arguments it receives. -/
def scriptCalls (t : List Effect) : List (JSObject × List Value) :=
  t.filterMap (fun e =>
    match e with
    | Effect.call _ callback first _ => some (callback, scriptArguments first)
    | _ => none)

/-! ## Sample inputs -/

/-- A script function. -/
def sampleFn : JSObject := ⟨7, true⟩

/-- A record owned by context `0` that stores `sampleFn`. -/
def sampleRecord : BridgeCallbackContext := ⟨0, some (Value.object sampleFn)⟩

/-- A record owned by context `0` whose stored callback is null. -/
def nullRecord : BridgeCallbackContext := ⟨0, none⟩

/-- A world whose contexts are valid and not frozen, holding `sampleRecord`. -/
def liveWorld : World :=
  { contexts := fun _ => ⟨true, false, 0⟩
    checkContext := fun _ _ => true
    contextList := [sampleRecord]
    trace := [] }

/-- A world whose contexts are valid and frozen. -/
def frozenWorld : World :=
  { contexts := fun _ => ⟨true, true, 0⟩
    checkContext := fun _ _ => true
    contextList := [sampleRecord]
    trace := [] }

/-- A world whose contexts have been disposed: they report not valid. -/
def disposedWorld : World :=
  { contexts := fun _ => ⟨false, false, 0⟩
    checkContext := fun _ _ => true
    contextList := [sampleRecord]
    trace := [] }

/-- A world with valid, non-frozen contexts and an empty registry. -/
def emptyWorld : World :=
  { contexts := fun _ => ⟨true, false, 0⟩
    checkContext := fun _ _ => true
    contextList := []
    trace := [] }

/-- A platform with every host entry point registered; scheduling answers handle `5`. -/
def samplePlatform : Platform :=
  { dartMethod :=
      { setTimeout := some (fun _ _ _ _ _ => 5)
        setInterval := some (fun _ _ _ _ _ => 5)
        requestAnimationFrame := some (fun _ _ _ _ => 5)
        clearTimeout := true
        cancelAnimationFrame := true }
    outOfRangeCast := fun _ => 0 }

/-- The argument list `(sampleFn, 10)`. -/
def sampleArgs : Nat → Value := fun i =>
  if i = 0 then Value.object sampleFn
  else if i = 1 then Value.number (Double.finite 10)
  else Value.undefined

/-- An argument list whose first argument is the number `3`. -/
def numberArgs : Nat → Value := fun _ => Value.number (Double.finite 3)

/-- The argument list `(fn, 10)`. -/
def timeoutArgs (fn : JSObject) : Nat → Value := fun i =>
  if i = 0 then Value.object fn
  else if i = 1 then Value.number (Double.finite 10)
  else Value.undefined

/-- The script `id = setTimeout(fn, 10); clearTimeout(id)` of the cancellation scenario: the
value `setTimeout` returns is the one argument of `clearTimeout`.  When `setTimeout` does not
return, the script ends there. -/
def scheduleThenCancel (p : Platform) (w : World) (context : CtxRef) (fn : JSObject) :
    World × Completion Value :=
  match setTimeout p w context Value.undefined (timeoutArgs fn) 2 with
  | (w1, Completion.returned id) => clearTimeout p w1 context Value.undefined (fun _ => id) 1
  | r => r

/-! ## The delay of a timer, the cancel calls and the binding table -/

/-- The delay `setTimeout` computes from its arguments (timer.cc lines 111 to 120): `some` of
the `int32_t` handed to the host, or `none` where the binding throws the input error. -/
def timeoutDelay (p : Platform) (args : Nat → Value) (count : Nat) : Option Int :=
  if (args 1).isUndefined || decide (count < 2) then some 0
  else match (args 1).getNumber with
    | some d => some (p.toInt32 d)
    | none => none

/-- The delay `setInterval` computes from its arguments (timer.cc lines 162 to 171); `count`
is not consulted. -/
def intervalDelay (p : Platform) (args : Nat → Value) : Option Int :=
  if (args 1).isUndefined then some 0
  else match (args 1).getNumber with
    | some d => some (p.toInt32 d)
    | none => none

/-- Whether an effect is a call of a host cancel entry point. -/
def Effect.isDartCancel : Effect → Bool
  | Effect.dartClearTimeout _ _ => true
  | Effect.dartCancelAnimationFrame _ _ => true
  | _ => false

/-- The calls of host cancel entry points recorded in a trace. -/
def dartCancels (t : List Effect) : List Effect := t.filter Effect.isDartCancel

/-- The host functions `bindTimer` binds. -/
inductive Binding where
  | setTimeout
  | setInterval
  | requestAnimationFrame
  | clearTimeout
  | cancelAnimationFrame
  deriving DecidableEq

/-- The table `bindTimer` installs on the global object: one `JSA_BINDING_FUNCTION` line per
entry, the property name and the function bound to it, in source order. -/
def bindTimer : List (String × Binding) :=
  [("setTimeout", Binding.setTimeout),
   ("setInterval", Binding.setInterval),
   ("__kraken_request_animation_frame__", Binding.requestAnimationFrame),
   ("clearTimeout", Binding.clearTimeout),
   ("clearInterval", Binding.clearTimeout),
   ("cancelAnimationFrame", Binding.cancelAnimationFrame)]

/-- The world after a scheduling binding has registered the record `callbackContext` and made
the host call `request`: the record is appended to the registry and the call to the trace. -/
def World.scheduled (w : World) (callbackContext : BridgeCallbackContext) (request : Effect) :
    World :=
  { w with
    contextList := w.contextList ++ [callbackContext]
    trace := w.trace ++ [request] }

/-- An argument list holding only the function `sampleFn`; the memory after it holds the
number `7`. -/
def loneCallbackArgs : Nat → Value := fun i =>
  if i = 0 then Value.object sampleFn else Value.number (Double.finite 7)

/-- An argument list holding only the function `sampleFn`; the memory after it holds a
string. -/
def loneCallbackThenString : Nat → Value := fun i =>
  if i = 0 then Value.object sampleFn else Value.string "x"

/-- An argument list whose arguments are all the string `"x"`. -/
def stringArgs : Nat → Value := fun _ => Value.string "x"

/-- A platform with no host entry point registered. -/
def barePlatform : Platform :=
  { dartMethod :=
      { setTimeout := none
        setInterval := none
        requestAnimationFrame := none
        clearTimeout := false
        cancelAnimationFrame := false }
    outOfRangeCast := fun _ => 0 }

/-- A platform whose host scheduling entry points all answer the failure sentinel `-1`. -/
def failingPlatform : Platform :=
  { dartMethod :=
      { setTimeout := some (fun _ _ _ _ _ => -1)
        setInterval := some (fun _ _ _ _ _ => -1)
        requestAnimationFrame := some (fun _ _ _ _ => -1)
        clearTimeout := true
        cancelAnimationFrame := true }
    outOfRangeCast := fun _ => 0 }


/-! ## The methods of the Event prototype (bridge/bindings/qjs/dom/event.h) -/

namespace qjs

/-- The three static handlers class `Event` declares. -/
inductive EventHandler where
  | stopPropagation
  | stopImmediatePropagation
  | preventDefault
  deriving DecidableEq

/-- The name of a handler, as declared. -/
def EventHandler.name : EventHandler → String
  | EventHandler.stopPropagation => "stopPropagation"
  | EventHandler.stopImmediatePropagation => "stopImmediatePropagation"
  | EventHandler.preventDefault => "preventDefault"

/-- An `ObjectFunction` member: it installs `handler` on the prototype object under the
property `name`, with `argc` declared arguments (the class is defined in host_class.h; the
three fields are the arguments the members of `Event` pass). -/
structure ObjectFunction where
  name : String
  handler : EventHandler
  argc : Nat
  deriving DecidableEq

/-- The member `m_stopPropagation` of `Event`. -/
def Event.m_stopPropagation : ObjectFunction :=
  ⟨"stopPropagation", EventHandler.stopPropagation, 0⟩

/-- The member `m_stopImmediatePropagation` of `Event`. -/
def Event.m_stopImmediatePropagation : ObjectFunction :=
  ⟨"immediatePropagation", EventHandler.stopImmediatePropagation, 0⟩

/-- The member `m_preventDefault` of `Event`. -/
def Event.m_preventDefault : ObjectFunction :=
  ⟨"preventDefault", EventHandler.preventDefault, 1⟩

/-- The functions installed on the prototype object of `Event`, in the order of the
members. -/
def Event.prototypeFunctions : List ObjectFunction :=
  [Event.m_stopPropagation, Event.m_stopImmediatePropagation, Event.m_preventDefault]

/-- The handler found on the Event prototype under a property name, if any. -/
def Event.prototypeLookup (name : String) : Option EventHandler :=
  (Event.prototypeFunctions.find? (fun f => f.name == name)).map ObjectFunction.handler

end qjs

end binding
end kraken

/-!
The shared runtime and its contexts (bridge/core/script_state.cc).

The engine (QuickJS) and the shared factories are collaborators: the calls made to them are
recorded in order, and the engine hands out a fresh pointer for every runtime and context it
creates.
-/

namespace webf

/-- The calls script_state.cc makes to the engine and to the shared factories.  Pointers are
`Option Nat`, `none` being `nullptr`. -/
inductive Call where
  | JS_NewRuntime (runtime : Option Nat)
  | JS_UpdateStackTop (runtime : Option Nat)
  | JS_NewContext (runtime : Option Nat) (ctx : Option Nat)
  | names_installer_Init (ctx : Option Nat)
  | DefinedPropertiesInitializer_Init
  | JS_NewClassID
  | JS_FreeContext (ctx : Option Nat)
  | JS_RunGC (runtime : Option Nat)
  | DefinedPropertiesInitializer_Dispose
  | names_installer_Dispose
  | HTMLElementFactory_Dispose
  | EventFactory_Dispose
  | JS_FreeRuntime (runtime : Option Nat)
  deriving DecidableEq

/-- The thread-local state of script_state.cc: the shared runtime `runtime_`, the counter
`runningContexts` (an `int32_t`), the calls made so far (oldest first), and the number of
pointers the engine has handed out, which is the next fresh one. -/
structure ThreadState where
  runtime_ : Option Nat
  runningContexts : Int
  calls : List Call
  allocated : Nat
  deriving DecidableEq

/-- The fields of a `ScriptState` object that script_state.cc writes. -/
structure ScriptState where
  ctx_ : Option Nat
  ctx_invalid_ : Bool
  deriving DecidableEq

/-- Modelled from the spec: the value of `ctx_invalid_` in a `ScriptState` whose constructor
has run.  The member is declared in script_state.h, which is not among the sources, and the
constructor does not assign it; a context that is "fully constructed and not yet disposed" is
valid (spec 3, Context Lifetime Token), and the test `Context.isValid` expects a fresh context
to report valid. -/
def ctxInvalidInitially : Bool := false

/-- The constructor `ScriptState::ScriptState()`.  `classIdBump` is the number of rounds of
its loop, `JS_CLASS_CUSTOM_CLASS_INIT_COUNT - JS_CLASS_GC_TRACKER + 2`, two constants of
headers that are not among the sources. -/
def ScriptState.ctor (classIdBump : Nat) (g : ThreadState) : ThreadState × ScriptState :=
  let g1 : ThreadState :=
    { g with runningContexts := kraken.binding.wrapInt32 (g.runningContexts + 1) }
  let first_loaded : Bool := g1.runtime_.isNone
  let g2 : ThreadState :=
    if g1.runtime_.isNone then
      { g1 with
        runtime_ := some g1.allocated
        allocated := g1.allocated + 1
        calls := g1.calls ++ [Call.JS_NewRuntime (some g1.allocated)] }
    else g1
  let g3 : ThreadState := { g2 with calls := g2.calls ++ [Call.JS_UpdateStackTop g2.runtime_] }
  let ctx : Option Nat := some g3.allocated
  let g4 : ThreadState :=
    { g3 with
      allocated := g3.allocated + 1
      calls := g3.calls ++ [Call.JS_NewContext g3.runtime_ ctx] }
  let g5 : ThreadState :=
    if first_loaded then
      { g4 with
        calls := g4.calls
          ++ [Call.names_installer_Init ctx, Call.DefinedPropertiesInitializer_Init]
          ++ List.replicate classIdBump Call.JS_NewClassID }
    else g4
  (g5, { ctx_ := ctx, ctx_invalid_ := ctxInvalidInitially })

/-- The accessor `ScriptState::runtime()`. -/
def ScriptState.runtime (g : ThreadState) : Option Nat := g.runtime_

/-- The destructor `ScriptState::~ScriptState()`, run on the object `s`. -/
def ScriptState.dtor (g : ThreadState) (s : ScriptState) : ThreadState × ScriptState :=
  let s1 : ScriptState := { s with ctx_invalid_ := true }
  let g1 : ThreadState :=
    { g with calls := g.calls ++ [Call.JS_FreeContext s1.ctx_, Call.JS_RunGC g.runtime_] }
  let g2 : ThreadState :=
    { g1 with runningContexts := kraken.binding.wrapInt32 (g1.runningContexts - 1) }
  let g3 : ThreadState :=
    if g2.runningContexts = 0 then
      { g2 with
        calls := g2.calls
          ++ [Call.DefinedPropertiesInitializer_Dispose, Call.names_installer_Dispose,
              Call.HTMLElementFactory_Dispose, Call.EventFactory_Dispose,
              Call.JS_FreeRuntime g2.runtime_]
        runtime_ := none }
    else g2
  (g3, { s1 with ctx_ := none })

/-- Modelled from the spec: whether a context reports valid (`IsContextValid` and `IsCtxValid`
of the executing context, declared outside the sources).  A context is valid when "fully
constructed and not yet disposed" (spec 3, Context Lifetime Token): its script state holds the
engine context the constructor created and is not marked invalid. -/
def ScriptState.isValid (s : ScriptState) : Bool := s.ctx_.isSome && !s.ctx_invalid_

/-- One thread of the process: its thread-local state, every `ScriptState` constructed so far
in order of construction (a destroyed one keeps the fields its destructor left), and the
positions of those that are live, that is, constructed and not yet destroyed. -/
structure Process where
  thread : ThreadState
  objects : List ScriptState
  live : List Nat

/-- A step of the thread: constructing a `ScriptState`, or destroying the one at position
`k`. -/
inductive Op where
  | construct
  | destruct (k : Nat)
  deriving DecidableEq

/-- The thread before any context exists. -/
def Process.initial : Process :=
  { thread := { runtime_ := none, runningContexts := 0, calls := [], allocated := 0 }
    objects := []
    live := [] }

/-- Run one step.  A destruction is applied to a live object only; one aimed at an object
that is not live is not a step of the program and leaves the state as it is. -/
def Process.step (classIdBump : Nat) (s : Process) : Op → Process
  | Op.construct =>
    let r := ScriptState.ctor classIdBump s.thread
    { thread := r.1, objects := s.objects ++ [r.2], live := s.live ++ [s.objects.length] }
  | Op.destruct k =>
    if k ∈ s.live then
      match s.objects[k]? with
      | some o =>
        let r := ScriptState.dtor s.thread o
        { thread := r.1, objects := s.objects.set k r.2, live := s.live.erase k }
      | none => s
    else s

/-- Run a sequence of steps, first to last. -/
def Process.run (classIdBump : Nat) (s : Process) (ops : List Op) : Process :=
  ops.foldl (Process.step classIdBump) s

/-- Whether the context at position `k` exists and reports valid. -/
def Process.reportsValid (s : Process) (k : Nat) : Bool :=
  match s.objects[k]? with
  | some o => o.isValid
  | none => false

/-- Whether the context at position `k` exists and is marked invalid. -/
def Process.markedInvalid (s : Process) (k : Nat) : Bool :=
  match s.objects[k]? with
  | some o => o.ctx_invalid_
  | none => false

/-- The calls a construction makes when it creates the runtime, given the pointers handed
out: the runtime `rt`, then the context `rt + 1`. -/
def firstConstructionCalls (classIdBump : Nat) (rt : Nat) : List Call :=
  [Call.JS_NewRuntime (some rt), Call.JS_UpdateStackTop (some rt),
    Call.JS_NewContext (some rt) (some (rt + 1)), Call.names_installer_Init (some (rt + 1)),
    Call.DefinedPropertiesInitializer_Init]
  ++ List.replicate classIdBump Call.JS_NewClassID

/-- The calls a construction makes when the runtime `rt` exists already. -/
def laterConstructionCalls (rt : Option Nat) (ctx : Nat) : List Call :=
  [Call.JS_UpdateStackTop rt, Call.JS_NewContext rt (some ctx)]

/-- The calls every destruction makes: the context is freed, then the garbage collector
runs. -/
def contextTeardownCalls (ctx : Option Nat) (rt : Option Nat) : List Call :=
  [Call.JS_FreeContext ctx, Call.JS_RunGC rt]

/-- The calls a destruction adds when it tears the shared state down: the four factories are
disposed, then the runtime is freed. -/
def sharedTeardownCalls (rt : Option Nat) : List Call :=
  [Call.DefinedPropertiesInitializer_Dispose, Call.names_installer_Dispose,
    Call.HTMLElementFactory_Dispose, Call.EventFactory_Dispose, Call.JS_FreeRuntime rt]

/-- The steps of the test `Context.isValid`: a context is created and destroyed, then a second
one is created. -/
def isValidTestOps : List Op := [Op.construct, Op.destruct 0, Op.construct]

end webf

namespace kraken
namespace binding

/-! ## Lemmas on traces -/

theorem invocations_emit_call (w : World) (c : CtxRef) (fn : JSObject) (a : Value) (n : Int) :
    invocations (w.emit (Effect.call c fn a n)).trace
      = invocations w.trace ++ [Effect.call c fn a n] := by
  simp [invocations, World.emit, Effect.isCall]

theorem invocations_emit_reportError (w : World) (c : CtxRef) (m : String) :
    invocations (w.emit (Effect.reportError c m)).trace = invocations w.trace := by
  simp [invocations, World.emit, Effect.isCall]

theorem errorReports_emit_reportError (w : World) (c : CtxRef) (m : String) :
    errorReports (w.emit (Effect.reportError c m)).trace
      = errorReports w.trace ++ [Effect.reportError c m] := by
  simp [errorReports, World.emit, Effect.isReportError]

theorem errorReports_emit_call (w : World) (c : CtxRef) (fn : JSObject) (a : Value) (n : Int) :
    errorReports (w.emit (Effect.call c fn a n)).trace = errorReports w.trace := by
  simp [errorReports, World.emit, Effect.isReportError]

theorem invocations_emit_log (w : World) (m : String) :
    invocations (w.emit (Effect.log m)).trace = invocations w.trace := by
  simp [invocations, World.emit, Effect.isCall]

theorem errorReports_emit_log (w : World) (m : String) :
    errorReports (w.emit (Effect.log m)).trace = errorReports w.trace := by
  simp [errorReports, World.emit, Effect.isReportError]

/-! ## The trampolines: stale, frozen and failed firings -/

/-- C1: for each of the four trampolines, every record, every context index, every result and
every errmsg: when the context check fails or the owning context reports not valid, the
trampoline returns and leaves the world exactly as it was, so the stored callback is not
invoked and nothing is reported to the error channel. -/
theorem stale_firing_is_silent (t : Trampoline) (w : World) (obj : BridgeCallbackContext)
    (contextIndex : Int) (result : Double) (errmsg : Option String)
    (h : w.checkContext obj._context contextIndex = false
      ∨ (w.contexts obj._context).valid = false) :
    invokeTrampoline t w obj contextIndex result errmsg = (w, Completion.returned ()) := by
  rcases h with h | h
  · cases t <;>
      simp [invokeTrampoline, handleTransientCallback, handleRAFTransientCallback,
        handlePersistentCallback, handleRAFPersistentCallback, h]
  · cases t <;>
      simp [invokeTrampoline, handleTransientCallback, handleRAFTransientCallback,
        handlePersistentCallback, handleRAFPersistentCallback, h]

theorem stale_firing_is_silent_witness :
    (disposedWorld.contexts sampleRecord._context).valid = false
      ∧ invokeTrampoline Trampoline.handleTransientCallback disposedWorld sampleRecord 0
          (Double.finite 0) none = (disposedWorld, Completion.returned ()) :=
  ⟨by decide,
    stale_firing_is_silent Trampoline.handleTransientCallback disposedWorld sampleRecord 0
      (Double.finite 0) none (Or.inr (by decide))⟩

/-- C3: for each of the four trampolines: when the owning context is valid but frozen, the
trampoline returns, the registry and the contexts are as before, and the trace gains no
invocation of a script function and no report to the error channel. -/
theorem frozen_firing_keeps_record (t : Trampoline) (w : World) (obj : BridgeCallbackContext)
    (contextIndex : Int) (result : Double) (errmsg : Option String)
    (hvalid : (w.contexts obj._context).valid = true)
    (hfrozen : (w.contexts obj._context).freeze = true) :
    (invokeTrampoline t w obj contextIndex result errmsg).2 = Completion.returned ()
      ∧ (invokeTrampoline t w obj contextIndex result errmsg).1.contextList = w.contextList
      ∧ (invokeTrampoline t w obj contextIndex result errmsg).1.contexts = w.contexts
      ∧ invocations (invokeTrampoline t w obj contextIndex result errmsg).1.trace = invocations w.trace
      ∧ errorReports (invokeTrampoline t w obj contextIndex result errmsg).1.trace
          = errorReports w.trace := by
  cases hc : w.checkContext obj._context contextIndex <;> cases t <;>
    simp [invokeTrampoline, handleTransientCallback, handleRAFTransientCallback,
      handlePersistentCallback, handleRAFPersistentCallback, hc, hvalid, hfrozen,
      invocations_emit_log, errorReports_emit_log] <;>
    simp [World.emit]

theorem frozen_firing_keeps_record_witness :
    (frozenWorld.contexts sampleRecord._context).valid = true
      ∧ (frozenWorld.contexts sampleRecord._context).freeze = true
      ∧ (invokeTrampoline Trampoline.handleRAFTransientCallback frozenWorld sampleRecord 0
          (Double.finite 16) none).1.contextList = frozenWorld.contextList :=
  ⟨by decide, by decide,
    (frozen_firing_keeps_record Trampoline.handleRAFTransientCallback frozenWorld sampleRecord 0
      (Double.finite 16) none (by decide) (by decide)).2.1⟩

/-- C4: for each of the four trampolines, on a context that passes the context check, is valid
and is not frozen: when the stored callback of the record is null, then for every errmsg the
trampoline returns normally, and the world it leaves is the old one with exactly one new
effect, a report to the error channel of the owning context; no script function is
invoked. -/
theorem null_callback_is_reported (t : Trampoline) (w : World) (obj : BridgeCallbackContext)
    (contextIndex : Int) (result : Double) (errmsg : Option String)
    (hcheck : w.checkContext obj._context contextIndex = true)
    (hvalid : (w.contexts obj._context).valid = true)
    (hfrozen : (w.contexts obj._context).freeze = false)
    (hnull : obj._callback = none) :
    (∃ message : String, invokeTrampoline t w obj contextIndex result errmsg
        = (w.emit (Effect.reportError obj._context message), Completion.returned ()))
      ∧ (errorReports (invokeTrampoline t w obj contextIndex result errmsg).1.trace).length
          = (errorReports w.trace).length + 1
      ∧ invocations (invokeTrampoline t w obj contextIndex result errmsg).1.trace
          = invocations w.trace := by
  cases t <;>
    simp [invokeTrampoline, handleTransientCallback, handleRAFTransientCallback,
      handlePersistentCallback, handleRAFPersistentCallback, hcheck, hvalid, hfrozen, hnull,
      invocations_emit_reportError, errorReports_emit_reportError] <;>
    exact ⟨_, rfl⟩

theorem null_callback_is_reported_witness :
    liveWorld.checkContext nullRecord._context 0 = true
      ∧ (liveWorld.contexts nullRecord._context).valid = true
      ∧ (liveWorld.contexts nullRecord._context).freeze = false
      ∧ nullRecord._callback = none
      ∧ invocations (invokeTrampoline Trampoline.handlePersistentCallback liveWorld nullRecord 0
          (Double.finite 0) (some "host failure")).1.trace = invocations liveWorld.trace :=
  ⟨by decide, by decide, by decide, by decide,
    (null_callback_is_reported Trampoline.handlePersistentCallback liveWorld nullRecord 0
      (Double.finite 0) (some "host failure") (by decide) (by decide) (by decide)
      (by decide)).2.2⟩

/-- C5: for each of the four trampolines, on a context that passes the context check, is valid
and is not frozen, with a stored callback that is not null: when the host supplies an errmsg
that is not null, the trampoline returns normally, and the world it leaves is the old one with
exactly one new effect, a report to the error channel of the owning context whose message is
errmsg; the stored callback is not invoked. -/
theorem host_error_is_reported (t : Trampoline) (w : World) (obj : BridgeCallbackContext)
    (contextIndex : Int) (result : Double) (callback : Value) (msg : String)
    (hcheck : w.checkContext obj._context contextIndex = true)
    (hvalid : (w.contexts obj._context).valid = true)
    (hfrozen : (w.contexts obj._context).freeze = false)
    (hcallback : obj._callback = some callback) :
    invokeTrampoline t w obj contextIndex result (some msg)
        = (w.emit (Effect.reportError obj._context msg), Completion.returned ())
      ∧ errorReports (invokeTrampoline t w obj contextIndex result (some msg)).1.trace
          = errorReports w.trace ++ [Effect.reportError obj._context msg]
      ∧ invocations (invokeTrampoline t w obj contextIndex result (some msg)).1.trace
          = invocations w.trace := by
  cases t <;>
    simp [invokeTrampoline, handleTransientCallback, handleRAFTransientCallback,
      handlePersistentCallback, handleRAFPersistentCallback, hcheck, hvalid, hfrozen,
      hcallback, invocations_emit_reportError, errorReports_emit_reportError]

theorem host_error_is_reported_witness :
    liveWorld.checkContext sampleRecord._context 0 = true
      ∧ (liveWorld.contexts sampleRecord._context).valid = true
      ∧ (liveWorld.contexts sampleRecord._context).freeze = false
      ∧ sampleRecord._callback = some (Value.object sampleFn)
      ∧ invokeTrampoline Trampoline.handleRAFPersistentCallback liveWorld sampleRecord 0
          (Double.finite 16) (some "timer failed")
        = (liveWorld.emit (Effect.reportError sampleRecord._context "timer failed"),
            Completion.returned ()) :=
  ⟨by decide, by decide, by decide, by decide,
    (host_error_is_reported Trampoline.handleRAFPersistentCallback liveWorld sampleRecord 0
      (Double.finite 16) (Value.object sampleFn) "timer failed" (by decide) (by decide)
      (by decide) (by decide)).1⟩

theorem handlePersistentCallback_fires (w : World) (obj : BridgeCallbackContext)
    (contextIndex : Int) (callback : Value) (fn : JSObject)
    (hcheck : w.checkContext obj._context contextIndex = true)
    (hvalid : (w.contexts obj._context).valid = true)
    (hfrozen : (w.contexts obj._context).freeze = false)
    (hcallback : obj._callback = some callback)
    (hfn : callback.asFunction = some fn) :
    handlePersistentCallback w obj contextIndex none
      = (w.emit (Effect.call obj._context fn Value.undefined 0), Completion.returned ()) := by
  simp [handlePersistentCallback, hcheck, hvalid, hfrozen, hcallback, hfn]

theorem handleRAFPersistentCallback_fires (w : World) (obj : BridgeCallbackContext)
    (contextIndex : Int) (result : Double) (callback : Value) (fn : JSObject)
    (hcheck : w.checkContext obj._context contextIndex = true)
    (hvalid : (w.contexts obj._context).valid = true)
    (hfrozen : (w.contexts obj._context).freeze = false)
    (hcallback : obj._callback = some callback)
    (hfn : callback.asFunction = some fn) :
    handleRAFPersistentCallback w obj contextIndex result none
      = (w.emit (Effect.call obj._context fn (Value.number result) 0),
          Completion.returned ()) := by
  simp [handleRAFPersistentCallback, hcheck, hvalid, hfrozen, hcallback, hfn]

theorem scriptCalls_emit_call (w : World) (c : CtxRef) (fn : JSObject) (a : Value) (n : Int) :
    scriptCalls (w.emit (Effect.call c fn a n)).trace
      = scriptCalls w.trace ++ [(fn, scriptArguments a)] := by
  simp [scriptCalls, World.emit, List.filterMap_append]

/-- C6: for each of the four trampolines, on a context that passes the context check, is valid
and is not frozen, with a stored callback that holds the script function `fn`, and a null
errmsg: the trampoline returns, and the world it leaves is the old one with exactly one new
effect, the call of `fn`; nothing is reported to the error channel.  The timer trampolines
call `fn` with no result value, so that it receives no argument; the animation-frame
trampolines call it with the number supplied by the host, which it receives as its one
argument.  What the call returns is not kept: the trampolines return nothing. -/
theorem successful_firing_invokes_once (w : World) (obj : BridgeCallbackContext)
    (contextIndex : Int) (result : Double) (callback : Value) (fn : JSObject)
    (hcheck : w.checkContext obj._context contextIndex = true)
    (hvalid : (w.contexts obj._context).valid = true)
    (hfrozen : (w.contexts obj._context).freeze = false)
    (hcallback : obj._callback = some callback)
    (hfn : callback.asFunction = some fn) :
    (handlePersistentCallback w obj contextIndex none
        = (w.emit (Effect.call obj._context fn Value.undefined 0), Completion.returned ())
      ∧ handleTransientCallback w obj contextIndex none
        = (w.emit (Effect.call obj._context fn Value.undefined 0), Completion.returned ())
      ∧ handleRAFPersistentCallback w obj contextIndex result none
        = (w.emit (Effect.call obj._context fn (Value.number result) 0),
            Completion.returned ())
      ∧ handleRAFTransientCallback w obj contextIndex result none
        = (w.emit (Effect.call obj._context fn (Value.number result) 0),
            Completion.returned ()))
      ∧ (scriptCalls (handlePersistentCallback w obj contextIndex none).1.trace
          = scriptCalls w.trace ++ [(fn, [])]
        ∧ scriptCalls (handleTransientCallback w obj contextIndex none).1.trace
          = scriptCalls w.trace ++ [(fn, [])]
        ∧ scriptCalls (handleRAFPersistentCallback w obj contextIndex result none).1.trace
          = scriptCalls w.trace ++ [(fn, [Value.number result])]
        ∧ scriptCalls (handleRAFTransientCallback w obj contextIndex result none).1.trace
          = scriptCalls w.trace ++ [(fn, [Value.number result])])
      ∧ (errorReports (handlePersistentCallback w obj contextIndex none).1.trace
          = errorReports w.trace
        ∧ errorReports (handleTransientCallback w obj contextIndex none).1.trace
          = errorReports w.trace
        ∧ errorReports (handleRAFPersistentCallback w obj contextIndex result none).1.trace
          = errorReports w.trace
        ∧ errorReports (handleRAFTransientCallback w obj contextIndex result none).1.trace
          = errorReports w.trace) := by
  have hp := handlePersistentCallback_fires w obj contextIndex callback fn hcheck hvalid
    hfrozen hcallback hfn
  have hr := handleRAFPersistentCallback_fires w obj contextIndex result callback fn hcheck
    hvalid hfrozen hcallback hfn
  have ht : handleTransientCallback w obj contextIndex none
      = (w.emit (Effect.call obj._context fn Value.undefined 0), Completion.returned ()) := hp
  have hrt : handleRAFTransientCallback w obj contextIndex result none
      = (w.emit (Effect.call obj._context fn (Value.number result) 0),
          Completion.returned ()) := hr
  refine ⟨⟨hp, ht, hr, hrt⟩, ?_, ?_⟩
  · rw [hp, ht, hr, hrt]
    simp [scriptCalls_emit_call, scriptArguments, resultValue]
  · rw [hp, ht, hr, hrt]
    simp [errorReports_emit_call]

theorem successful_firing_invokes_once_witness :
    liveWorld.checkContext sampleRecord._context 0 = true
      ∧ (liveWorld.contexts sampleRecord._context).valid = true
      ∧ (liveWorld.contexts sampleRecord._context).freeze = false
      ∧ sampleRecord._callback = some (Value.object sampleFn)
      ∧ (Value.object sampleFn).asFunction = some sampleFn
      ∧ scriptCalls (handleTransientCallback liveWorld sampleRecord 0 none).1.trace
          = scriptCalls liveWorld.trace ++ [(sampleFn, [])]
      ∧ scriptCalls
          (handleRAFTransientCallback liveWorld sampleRecord 0 (Double.finite 16) none).1.trace
          = scriptCalls liveWorld.trace ++ [(sampleFn, [Value.number (Double.finite 16)])] :=
  ⟨by decide, by decide, by decide, by decide, by decide,
    (successful_firing_invokes_once liveWorld sampleRecord 0 (Double.finite 16)
      (Value.object sampleFn) sampleFn (by decide) (by decide) (by decide) (by decide)
      (by decide)).2.1.2.1,
    (successful_firing_invokes_once liveWorld sampleRecord 0 (Double.finite 16)
      (Value.object sampleFn) sampleFn (by decide) (by decide) (by decide) (by decide)
      (by decide)).2.1.2.2.2⟩

/-! ## The registry across firings -/

theorem handlePersistentCallback_frame (w : World) (obj : BridgeCallbackContext)
    (contextIndex : Int) (errmsg : Option String) :
    (handlePersistentCallback w obj contextIndex errmsg).1.contextList = w.contextList
      ∧ (handlePersistentCallback w obj contextIndex errmsg).1.contexts = w.contexts
      ∧ (handlePersistentCallback w obj contextIndex errmsg).1.checkContext
          = w.checkContext := by
  unfold handlePersistentCallback
  split_ifs <;> (try split) <;> (try split) <;> (try split) <;> simp [World.emit]

theorem handleRAFPersistentCallback_frame (w : World) (obj : BridgeCallbackContext)
    (contextIndex : Int) (result : Double) (errmsg : Option String) :
    (handleRAFPersistentCallback w obj contextIndex result errmsg).1.contextList
        = w.contextList
      ∧ (handleRAFPersistentCallback w obj contextIndex result errmsg).1.contexts = w.contexts
      ∧ (handleRAFPersistentCallback w obj contextIndex result errmsg).1.checkContext
          = w.checkContext := by
  unfold handleRAFPersistentCallback
  split_ifs <;> (try split) <;> (try split) <;> (try split) <;> simp [World.emit]

/-- C7: `handlePersistentCallback` never removes or modifies a callback record: for every
world, record, context index and errmsg, whatever the firing did, the registry and the
contexts are as before; and a later firing for the same record, on a context that then passes
the context check, is valid and is not frozen, with a null errmsg, invokes the stored function
again. -/
theorem persistent_record_stays_registered (w : World) (obj : BridgeCallbackContext)
    (contextIndex : Int) (errmsg : Option String) :
    (handlePersistentCallback w obj contextIndex errmsg).1.contextList = w.contextList
      ∧ (handlePersistentCallback w obj contextIndex errmsg).1.contexts = w.contexts
      ∧ ∀ (later : Int) (callback : Value) (fn : JSObject),
          (handlePersistentCallback w obj contextIndex errmsg).1.checkContext
              obj._context later = true →
          ((handlePersistentCallback w obj contextIndex errmsg).1.contexts
              obj._context).valid = true →
          ((handlePersistentCallback w obj contextIndex errmsg).1.contexts
              obj._context).freeze = false →
          obj._callback = some callback →
          callback.asFunction = some fn →
          handlePersistentCallback (handlePersistentCallback w obj contextIndex errmsg).1
              obj later none
            = ((handlePersistentCallback w obj contextIndex errmsg).1.emit
                (Effect.call obj._context fn Value.undefined 0), Completion.returned ()) :=
  ⟨(handlePersistentCallback_frame w obj contextIndex errmsg).1,
    (handlePersistentCallback_frame w obj contextIndex errmsg).2.1,
    fun later callback fn hcheck hvalid hfrozen hcallback hfn =>
      handlePersistentCallback_fires _ obj later callback fn hcheck hvalid hfrozen hcallback
        hfn⟩

theorem persistent_record_stays_registered_witness :
    timesInvoked sampleFn
        (handlePersistentCallback (handlePersistentCallback liveWorld sampleRecord 0 none).1
          sampleRecord 0 none).1.trace = 2
      ∧ handlePersistentCallback (handlePersistentCallback liveWorld sampleRecord 0 none).1
          sampleRecord 0 none
        = ((handlePersistentCallback liveWorld sampleRecord 0 none).1.emit
            (Effect.call sampleRecord._context sampleFn Value.undefined 0),
            Completion.returned ()) :=
  ⟨by decide,
    (persistent_record_stays_registered liveWorld sampleRecord 0 none).2.2 0
      (Value.object sampleFn) sampleFn (by decide) (by decide) (by decide) (by decide)
      (by decide)⟩

/-- C2, refuted as stated: on a valid, non-frozen context a one-shot trampoline that has run
to completion has not removed its record, and a second invocation for the same record invokes
the stored function a second time; so for `handleTransientCallback` as for
`handleRAFTransientCallback`. -/
theorem one_shot_record_fires_twice :
    sampleRecord ∈ (handleTransientCallback liveWorld sampleRecord 0 none).1.contextList
      ∧ timesInvoked sampleFn (handleTransientCallback liveWorld sampleRecord 0 none).1.trace
          = 1
      ∧ timesInvoked sampleFn
          (handleTransientCallback (handleTransientCallback liveWorld sampleRecord 0 none).1
            sampleRecord 0 none).1.trace = 2
      ∧ sampleRecord ∈ (handleRAFTransientCallback liveWorld sampleRecord 0 (Double.finite 16)
          none).1.contextList
      ∧ timesInvoked sampleFn
          (handleRAFTransientCallback
            (handleRAFTransientCallback liveWorld sampleRecord 0 (Double.finite 16) none).1
            sampleRecord 0 (Double.finite 33) none).1.trace = 2 := by
  decide

/-- C2, amended: a one-shot trampoline (`handleTransientCallback`,
`handleRAFTransientCallback`) does not remove its record: for every world, record, context
index, result and errmsg the registry and the contexts are as before, whether the firing
invoked the callback, reported an error or returned silently; and a later invocation for the
same record, on a context that then passes the context check, is valid and is not frozen, with
a null errmsg, invokes the stored function again. -/
theorem one_shot_record_stays_registered (w : World) (obj : BridgeCallbackContext)
    (contextIndex : Int) (result : Double) (errmsg : Option String) :
    (handleTransientCallback w obj contextIndex errmsg).1.contextList = w.contextList
      ∧ (handleTransientCallback w obj contextIndex errmsg).1.contexts = w.contexts
      ∧ (handleRAFTransientCallback w obj contextIndex result errmsg).1.contextList
          = w.contextList
      ∧ (handleRAFTransientCallback w obj contextIndex result errmsg).1.contexts = w.contexts
      ∧ (∀ (later : Int) (callback : Value) (fn : JSObject),
          (handleTransientCallback w obj contextIndex errmsg).1.checkContext
              obj._context later = true →
          ((handleTransientCallback w obj contextIndex errmsg).1.contexts
              obj._context).valid = true →
          ((handleTransientCallback w obj contextIndex errmsg).1.contexts
              obj._context).freeze = false →
          obj._callback = some callback →
          callback.asFunction = some fn →
          handleTransientCallback (handleTransientCallback w obj contextIndex errmsg).1
              obj later none
            = ((handleTransientCallback w obj contextIndex errmsg).1.emit
                (Effect.call obj._context fn Value.undefined 0), Completion.returned ()))
      ∧ (∀ (later : Int) (stamp : Double) (callback : Value) (fn : JSObject),
          (handleRAFTransientCallback w obj contextIndex result errmsg).1.checkContext
              obj._context later = true →
          ((handleRAFTransientCallback w obj contextIndex result errmsg).1.contexts
              obj._context).valid = true →
          ((handleRAFTransientCallback w obj contextIndex result errmsg).1.contexts
              obj._context).freeze = false →
          obj._callback = some callback →
          callback.asFunction = some fn →
          handleRAFTransientCallback
              (handleRAFTransientCallback w obj contextIndex result errmsg).1 obj later stamp
              none
            = ((handleRAFTransientCallback w obj contextIndex result errmsg).1.emit
                (Effect.call obj._context fn (Value.number stamp) 0),
                Completion.returned ())) :=
  ⟨(handlePersistentCallback_frame w obj contextIndex errmsg).1,
    (handlePersistentCallback_frame w obj contextIndex errmsg).2.1,
    (handleRAFPersistentCallback_frame w obj contextIndex result errmsg).1,
    (handleRAFPersistentCallback_frame w obj contextIndex result errmsg).2.1,
    fun later callback fn hcheck hvalid hfrozen hcallback hfn =>
      handlePersistentCallback_fires _ obj later callback fn hcheck hvalid hfrozen hcallback
        hfn,
    fun later stamp callback fn hcheck hvalid hfrozen hcallback hfn =>
      handleRAFPersistentCallback_fires _ obj later stamp callback fn hcheck hvalid hfrozen
        hcallback hfn⟩

theorem one_shot_record_stays_registered_witness :
    (handleTransientCallback liveWorld sampleRecord 0 none).1.contextList
        = liveWorld.contextList
      ∧ handleTransientCallback (handleTransientCallback liveWorld sampleRecord 0 none).1
          sampleRecord 0 none
        = ((handleTransientCallback liveWorld sampleRecord 0 none).1.emit
            (Effect.call sampleRecord._context sampleFn Value.undefined 0),
            Completion.returned ()) :=
  ⟨(one_shot_record_stays_registered liveWorld sampleRecord 0 (Double.finite 0) none).1,
    (one_shot_record_stays_registered liveWorld sampleRecord 0 (Double.finite 0) none).2.2.2.2.1
      0 (Value.object sampleFn) sampleFn (by decide) (by decide) (by decide) (by decide)
      (by decide)⟩

/-! ## Conversions between `int32_t` and `double` -/

theorem inInt32_wrapInt32 (i : Int) : inInt32 (wrapInt32 i) = true := by
  simp only [inInt32, wrapInt32, Bool.and_eq_true, decide_eq_true_eq]
  omega

theorem truncQ_intCast (i : Int) : truncQ (i : ℚ) = i := by
  simp [truncQ]

theorem toInt32_ofInt32 (p : Platform) (i : Int) (h : inInt32 i = true) :
    p.toInt32 (Double.ofInt32 i) = i := by
  simp [Platform.toInt32, Double.ofInt32, Double.truncInt32?, truncQ_intCast, h]

theorem toInt32_ten (p : Platform) : p.toInt32 (Double.finite 10) = 10 := by
  have h := toInt32_ofInt32 p 10 (by decide)
  simpa [Double.ofInt32] using h

theorem nextIndex_ne_sentinel (w : World) : w.nextIndex ≠ -1 := by
  unfold World.nextIndex
  omega

/-! ## Cancelling a timeout -/

/-- C8, refuted as stated: after `id = setTimeout(fn, 10)` followed at once by
`clearTimeout(id)`, on a valid, non-frozen context with the host entry points registered, the
record is still in the registry and an invocation of the timer trampoline for that record
invokes `fn`. -/
theorem cancelled_timeout_can_fire :
    (scheduleThenCancel samplePlatform emptyWorld 0 sampleFn).2
        = Completion.returned Value.undefined
      ∧ sampleRecord ∈ (scheduleThenCancel samplePlatform emptyWorld 0 sampleFn).1.contextList
      ∧ timesInvoked sampleFn (scheduleThenCancel samplePlatform emptyWorld 0 sampleFn).1.trace
          = 0
      ∧ timesInvoked sampleFn
          (handleTransientCallback (scheduleThenCancel samplePlatform emptyWorld 0 sampleFn).1
            sampleRecord 0 none).1.trace = 1 := by
  decide

/-- C8, amended: for every script function `fn`, on a non-frozen context with the host entry
points `setTimeout` and `clearTimeout` registered and a host handle other than `-1`:
`id = setTimeout(fn, 10)` followed at once by `clearTimeout(id)` registers the record of `fn`,
calls the host `setTimeout` with that record, the transient trampoline and delay `10`, then
calls the host `clearTimeout` with the index of the context and the handle, and returns
undefined, without invoking `fn`.  The record stays in the registry, and the bindings do not
themselves stop a later firing: an invocation of the timer trampoline for that record, on a
context that passes the context check and is valid, with a null errmsg, invokes `fn`.  That
`fn` is never invoked rests on the host not firing a timer it was told to clear. -/
theorem cancel_is_forwarded_to_host (p : Platform) (w : World) (context : CtxRef)
    (fn : JSObject)
    (dartSetTimeout : List Effect → BridgeCallbackContext → Int → Trampoline → Int → Int)
    (hfn : fn.isFunction = true)
    (hfrozen : (w.contexts context).freeze = false)
    (hset : p.dartMethod.setTimeout = some dartSetTimeout)
    (hclear : p.dartMethod.clearTimeout = true)
    (hid : wrapInt32 (dartSetTimeout w.trace ⟨context, some (Value.object fn)⟩
        w.nextIndex Trampoline.handleTransientCallback 10) ≠ -1) :
    (scheduleThenCancel p w context fn).2 = Completion.returned Value.undefined
      ∧ (scheduleThenCancel p w context fn).1.contextList
          = w.contextList ++ [⟨context, some (Value.object fn)⟩]
      ∧ (scheduleThenCancel p w context fn).1.trace
          = w.trace
            ++ [Effect.dartSetTimeout ⟨context, some (Value.object fn)⟩
                  w.nextIndex Trampoline.handleTransientCallback 10,
                Effect.dartClearTimeout (w.contexts context).contextIndex
                  (p.toInt32 (Double.ofInt32 w.nextIndex))]
      ∧ timesInvoked fn (scheduleThenCancel p w context fn).1.trace = timesInvoked fn w.trace
      ∧ ∀ contextIndex : Int,
          (scheduleThenCancel p w context fn).1.checkContext context contextIndex = true →
          ((scheduleThenCancel p w context fn).1.contexts context).valid = true →
          handleTransientCallback (scheduleThenCancel p w context fn).1
              ⟨context, some (Value.object fn)⟩ contextIndex none
            = ((scheduleThenCancel p w context fn).1.emit
                (Effect.call context fn Value.undefined 0), Completion.returned ()) := by
  have hidx : w.nextIndex ≠ -1 := nextIndex_ne_sentinel w
  have hrun : scheduleThenCancel p w context fn
      = ({ w with
            contextList := w.contextList ++ [⟨context, some (Value.object fn)⟩]
            trace := w.trace
              ++ [Effect.dartSetTimeout ⟨context, some (Value.object fn)⟩
                    w.nextIndex Trampoline.handleTransientCallback 10,
                  Effect.dartClearTimeout (w.contexts context).contextIndex
                    (p.toInt32 (Double.ofInt32 w.nextIndex))] },
          Completion.returned Value.undefined) := by
    simp [scheduleThenCancel, setTimeout, clearTimeout, registerCallback, timeoutArgs,
      Value.isFunctionObject, Value.isObject, Value.getObject, Value.isUndefined,
      Value.getNumber, hfn, hfrozen, hset, hclear, hid, hidx, toInt32_ten, World.emit]
  rw [hrun]
  refine ⟨rfl, rfl, rfl, ?_, ?_⟩
  · simp [timesInvoked, Effect.isCallOf, List.countP_cons]
  · intro contextIndex hcheck hvalid
    simp only [] at hcheck hvalid
    simp [handleTransientCallback, handlePersistentCallback, hcheck, hvalid, hfrozen,
      Value.asFunction, Value.getObject, hfn]

theorem cancel_is_forwarded_to_host_witness :
    sampleFn.isFunction = true
      ∧ (emptyWorld.contexts 0).freeze = false
      ∧ samplePlatform.dartMethod.clearTimeout = true
      ∧ samplePlatform.toInt32 (Double.ofInt32 emptyWorld.nextIndex) = 0
      ∧ (scheduleThenCancel samplePlatform emptyWorld 0 sampleFn).1.trace
          = emptyWorld.trace
            ++ [Effect.dartSetTimeout ⟨0, some (Value.object sampleFn)⟩
                  emptyWorld.nextIndex Trampoline.handleTransientCallback 10,
                Effect.dartClearTimeout (emptyWorld.contexts 0).contextIndex
                  (samplePlatform.toInt32 (Double.ofInt32 emptyWorld.nextIndex))] :=
  ⟨by decide, by decide, by decide, by decide,
    (cancel_is_forwarded_to_host samplePlatform emptyWorld 0 sampleFn (fun _ _ _ _ _ => 5)
      (by decide) (by decide) rfl (by decide) (by decide)).2.2.1⟩

/-! ## Scheduling: argument errors and the frozen context -/

/-- C9: for each of `setTimeout`, `setInterval` and `requestAnimationFrame`, in every world
(every context state, whatever the host has registered): when the call has zero arguments, or
its first argument is not a function, the call throws a script error and leaves the world as it
was, so no record is registered and no host scheduling entry point is called. -/
theorem bad_callback_argument_throws (p : Platform) (w : World) (context : CtxRef)
    (thisVal : Value) (args : Nat → Value) (count : Nat)
    (h : count = 0 ∨ (args 0).isFunctionObject = false) :
    (∃ message : String,
        setTimeout p w context thisVal args count = (w, Completion.threw message))
      ∧ (∃ message : String,
        setInterval p w context thisVal args count = (w, Completion.threw message))
      ∧ (∃ message : String,
        requestAnimationFrame p w context thisVal args count
          = (w, Completion.threw message)) := by
  rcases h with h | h
  · subst h
    exact ⟨by simp [setTimeout], by simp [setInterval], by simp [requestAnimationFrame]⟩
  · by_cases hc : count = 0
    · subst hc
      exact ⟨by simp [setTimeout], by simp [setInterval], by simp [requestAnimationFrame]⟩
    · have h1 : ¬ count < 1 := by omega
      have h2 : ¬ count ≤ 0 := by omega
      exact ⟨by simp [setTimeout, h1, h], by simp [setInterval, h1, h],
        by simp [requestAnimationFrame, h2, h]⟩

theorem bad_callback_argument_throws_witness :
    (numberArgs 0).isFunctionObject = false
      ∧ ∃ message : String,
          setInterval samplePlatform liveWorld 0 Value.undefined numberArgs 1
            = (liveWorld, Completion.threw message) :=
  ⟨by decide,
    (bad_callback_argument_throws samplePlatform liveWorld 0 Value.undefined numberArgs 1
      (Or.inr (by decide))).2.1⟩

/-- C10, refuted as stated: on a frozen context a scheduling call with zero arguments, or with
a first argument that is not a function, does not return undefined: it throws the input
error. -/
theorem frozen_scheduling_can_throw :
    (frozenWorld.contexts 0).freeze = true
      ∧ setTimeout samplePlatform frozenWorld 0 Value.undefined sampleArgs 0
          ≠ (frozenWorld, Completion.returned Value.undefined)
      ∧ (setTimeout samplePlatform frozenWorld 0 Value.undefined sampleArgs 0).2
          = Completion.threw
            "Failed to execute 'setTimeout': 1 argument required, but only 0 present."
      ∧ (setInterval samplePlatform frozenWorld 0 Value.undefined numberArgs 1).2
          = Completion.threw
            "Failed to execute 'setInterval': parameter 1 (callback) must be a function."
      ∧ (requestAnimationFrame samplePlatform frozenWorld 0 Value.undefined sampleArgs 0).2
          = Completion.threw
            "Failed to execute 'requestAnimationFrame': 1 argument required, but only 0 present." := by
  refine ⟨by decide, ?_, by decide, by decide, by decide⟩
  intro h
  have h2 := congrArg Prod.snd h
  revert h2
  decide

/-- C10, amended: when the context is frozen, `setTimeout`, `setInterval` and
`requestAnimationFrame` register no callback record and call no host scheduling entry point,
for every argument list; and when the argument list has at least one argument and the first is
a function, they return undefined and raise no script error (the only effect is a log
line). -/
theorem frozen_scheduling_registers_nothing (p : Platform) (w : World) (context : CtxRef)
    (thisVal : Value) (args : Nat → Value) (count : Nat)
    (hfrozen : (w.contexts context).freeze = true) :
    ((setTimeout p w context thisVal args count).1.contextList = w.contextList
        ∧ dartSchedules (setTimeout p w context thisVal args count).1.trace
            = dartSchedules w.trace)
      ∧ ((setInterval p w context thisVal args count).1.contextList = w.contextList
        ∧ dartSchedules (setInterval p w context thisVal args count).1.trace
            = dartSchedules w.trace)
      ∧ ((requestAnimationFrame p w context thisVal args count).1.contextList = w.contextList
        ∧ dartSchedules (requestAnimationFrame p w context thisVal args count).1.trace
            = dartSchedules w.trace)
      ∧ (1 ≤ count → (args 0).isFunctionObject = true →
          setTimeout p w context thisVal args count
              = (w.emit (Effect.log "Failed to execute 'setTimeout': context is freeze"),
                  Completion.returned Value.undefined)
            ∧ setInterval p w context thisVal args count
              = (w.emit (Effect.log "Failed to execute 'setInterval': context is freeze"),
                  Completion.returned Value.undefined)
            ∧ requestAnimationFrame p w context thisVal args count
              = (w.emit
                  (Effect.log "Failed to execute 'requestAnimationFrame': context is freeze"),
                  Completion.returned Value.undefined)) := by
  refine ⟨?_, ?_, ?_, ?_⟩
  · unfold setTimeout
    split_ifs <;> simp [World.emit, dartSchedules, Effect.isDartSchedule]
  · unfold setInterval
    split_ifs <;> simp [World.emit, dartSchedules, Effect.isDartSchedule]
  · unfold requestAnimationFrame
    split_ifs <;> simp [World.emit, dartSchedules, Effect.isDartSchedule]
  · intro hcount hfn
    have h1 : ¬ count < 1 := by omega
    have h2 : ¬ count ≤ 0 := by omega
    exact ⟨by simp [setTimeout, h1, hfn, hfrozen], by simp [setInterval, h1, hfn, hfrozen],
      by simp [requestAnimationFrame, h2, hfn, hfrozen]⟩

theorem frozen_scheduling_registers_nothing_witness :
    (frozenWorld.contexts 0).freeze = true
      ∧ 1 ≤ 2
      ∧ (sampleArgs 0).isFunctionObject = true
      ∧ setTimeout samplePlatform frozenWorld 0 Value.undefined sampleArgs 2
          = (frozenWorld.emit (Effect.log "Failed to execute 'setTimeout': context is freeze"),
              Completion.returned Value.undefined) :=
  ⟨by decide, by decide, by decide,
    ((frozen_scheduling_registers_nothing samplePlatform frozenWorld 0 Value.undefined
      sampleArgs 2 (by decide)).2.2.2 (by decide) (by decide)).1⟩

/-! ## Scheduling past the argument checks -/

theorem setTimeout_past_checks (p : Platform) (w : World) (context : CtxRef) (thisVal : Value)
    (args : Nat → Value) (count : Nat) (hcount : 1 ≤ count)
    (hfn : (args 0).isFunctionObject = true)
    (hfrozen : (w.contexts context).freeze = false) :
    setTimeout p w context thisVal args count
      = match timeoutDelay p args count with
        | none =>
          (w, Completion.threw
            "Failed to execute 'setTimeout': parameter 2 (timeout) only can be a number or undefined.")
        | some timeout =>
          match p.dartMethod.setTimeout with
          | none =>
            (w, Completion.threw
              "Failed to execute 'setTimeout': dart method (setTimeout) is not registered.")
          | some dart =>
            if wrapInt32 (dart w.trace ⟨context, some (args 0)⟩
                w.nextIndex Trampoline.handleTransientCallback timeout)
                = -1 then
              (w.scheduled ⟨context, some (args 0)⟩
                (Effect.dartSetTimeout ⟨context, some (args 0)⟩
                  w.nextIndex Trampoline.handleTransientCallback timeout),
                Completion.threw
                  "Failed to execute 'setTimeout': dart method (setTimeout) execute failed")
            else
              (w.scheduled ⟨context, some (args 0)⟩
                (Effect.dartSetTimeout ⟨context, some (args 0)⟩
                  w.nextIndex Trampoline.handleTransientCallback timeout),
                Completion.returned (Value.number (Double.ofInt32 w.nextIndex))) := by
  have h1 : ¬ count < 1 := by omega
  simp only [setTimeout, h1, hfn, hfrozen, if_false, Bool.not_true, Bool.false_eq_true]
  cases hd : timeoutDelay p args count with
  | none =>
    simp only [timeoutDelay] at hd
    simp only [hd]
  | some t =>
    simp only [timeoutDelay] at hd
    simp only [hd]
    cases p.dartMethod.setTimeout with
    | none => rfl
    | some dart =>
      have hidx : w.nextIndex ≠ -1 := nextIndex_ne_sentinel w
      by_cases hid : wrapInt32 (dart w.trace ⟨context, some (args 0)⟩ w.nextIndex
          Trampoline.handleTransientCallback t) = -1
      · simp [registerCallback, World.emit, World.scheduled, hid]
      · simp [registerCallback, World.emit, World.scheduled, hid, hidx]

theorem isFunction_of_isFunctionObject (v : Value) (h : v.isFunctionObject = true) :
    (match v.getObject with
      | some callbackFunction => callbackFunction.isFunction
      | none => false) = true := by
  cases v <;> simp_all [Value.isFunctionObject, Value.isObject, Value.getObject]

theorem setInterval_past_checks (p : Platform) (w : World) (context : CtxRef) (thisVal : Value)
    (args : Nat → Value) (count : Nat) (hcount : 1 ≤ count)
    (hfn : (args 0).isFunctionObject = true)
    (hfrozen : (w.contexts context).freeze = false) :
    setInterval p w context thisVal args count
      = match intervalDelay p args with
        | none =>
          (w, Completion.threw
            "Failed to execute 'setInterval': parameter 2 (timeout) only can be a number or undefined.")
        | some delay =>
          match p.dartMethod.setInterval with
          | none =>
            (w, Completion.threw
              "Failed to execute 'setInterval': dart method (setInterval) is not registered.")
          | some dart =>
            if wrapInt32 (dart w.trace ⟨context, some (args 0)⟩
                w.nextIndex Trampoline.handlePersistentCallback delay)
                = -1 then
              (w.scheduled ⟨context, some (args 0)⟩
                (Effect.dartSetInterval ⟨context, some (args 0)⟩
                  w.nextIndex Trampoline.handlePersistentCallback delay),
                Completion.threw
                  "Failed to execute 'setInterval': dart method (setInterval) got unexpected error.")
            else
              (w.scheduled ⟨context, some (args 0)⟩
                (Effect.dartSetInterval ⟨context, some (args 0)⟩
                  w.nextIndex Trampoline.handlePersistentCallback delay),
                Completion.returned (Value.number (Double.ofInt32 w.nextIndex))) := by
  have h1 : ¬ count < 1 := by omega
  have h2 := isFunction_of_isFunctionObject (args 0) hfn
  simp only [setInterval, h1, hfn, hfrozen, h2, if_false, Bool.not_true, Bool.false_eq_true]
  cases hd : intervalDelay p args with
  | none =>
    simp only [intervalDelay] at hd
    simp only [hd]
  | some t =>
    simp only [intervalDelay] at hd
    simp only [hd]
    cases p.dartMethod.setInterval with
    | none => rfl
    | some dart =>
      have hidx : w.nextIndex ≠ -1 := nextIndex_ne_sentinel w
      by_cases hid : wrapInt32 (dart w.trace ⟨context, some (args 0)⟩ w.nextIndex
          Trampoline.handlePersistentCallback t) = -1
      · simp [registerCallback, World.emit, World.scheduled, hid]
      · simp [registerCallback, World.emit, World.scheduled, hid, hidx]

theorem requestAnimationFrame_past_checks (p : Platform) (w : World) (context : CtxRef)
    (thisVal : Value) (args : Nat → Value) (count : Nat) (hcount : 1 ≤ count)
    (hfn : (args 0).isFunctionObject = true)
    (hfrozen : (w.contexts context).freeze = false) :
    requestAnimationFrame p w context thisVal args count
      = match p.dartMethod.requestAnimationFrame with
        | none =>
          (w, Completion.threw
            "Failed to execute 'requestAnimationFrame': dart method (requestAnimationFrame) is not registered.")
        | some dart =>
          if wrapInt32 (dart w.trace ⟨context, some (args 0)⟩
              w.nextIndex Trampoline.handleRAFTransientCallback)
              = -1 then
            (w.scheduled ⟨context, some (args 0)⟩
              (Effect.dartRequestAnimationFrame ⟨context, some (args 0)⟩
                w.nextIndex Trampoline.handleRAFTransientCallback),
              Completion.threw
                "Failed to execute 'requestAnimationFrame': dart method (requestAnimationFrame) executed with unexpected error.")
          else
            (w.scheduled ⟨context, some (args 0)⟩
              (Effect.dartRequestAnimationFrame ⟨context, some (args 0)⟩
                w.nextIndex Trampoline.handleRAFTransientCallback),
              Completion.returned (Value.number (Double.ofInt32 w.nextIndex))) := by
  have h1 : ¬ count ≤ 0 := by omega
  simp only [requestAnimationFrame, h1, hfn, hfrozen, if_false, Bool.not_true,
    Bool.false_eq_true]
  cases p.dartMethod.requestAnimationFrame with
  | none => rfl
  | some dart =>
    have hidx : w.nextIndex ≠ -1 := nextIndex_ne_sentinel w
    by_cases hid : wrapInt32 (dart w.trace ⟨context, some (args 0)⟩ w.nextIndex
        Trampoline.handleRAFTransientCallback) = -1
    · simp [registerCallback, World.emit, World.scheduled, hid]
    · simp [registerCallback, World.emit, World.scheduled, hid, hidx]

/-! ## The delay of a timer -/

theorem timeoutDelay_absent (p : Platform) (args : Nat → Value) (count : Nat)
    (h : count < 2 ∨ args 1 = Value.undefined) : timeoutDelay p args count = some 0 := by
  rcases h with h | h
  · simp [timeoutDelay, h]
  · simp [timeoutDelay, h, Value.isUndefined]

theorem timeoutDelay_number (p : Platform) (args : Nat → Value) (count : Nat) (d : Double)
    (hcount : 2 ≤ count) (h : args 1 = Value.number d) :
    timeoutDelay p args count = some (p.toInt32 d) := by
  have h2 : ¬ count < 2 := by omega
  simp [timeoutDelay, h, h2, Value.isUndefined, Value.getNumber]

theorem intervalDelay_undefined (p : Platform) (args : Nat → Value)
    (h : args 1 = Value.undefined) : intervalDelay p args = some 0 := by
  simp [intervalDelay, h, Value.isUndefined]

theorem intervalDelay_number (p : Platform) (args : Nat → Value) (d : Double)
    (h : args 1 = Value.number d) : intervalDelay p args = some (p.toInt32 d) := by
  simp [intervalDelay, h, Value.isUndefined, Value.getNumber]

theorem toInt32_in_range (p : Platform) (q : ℚ) (h : inInt32 (truncQ q) = true) :
    p.toInt32 (Double.finite q) = truncQ q := by
  simp [Platform.toInt32, Double.truncInt32?, h]

/-- C11, at the failing input: `setInterval(fn)` is called with one argument and the memory
after that argument holds the number `7`.  The second argument is absent, yet `setInterval`
reads `args[1]` without looking at `count`: it hands delay `7` to the host, and when that
memory holds a string it throws the input error of parameter 2.  `setTimeout`, which tests
`count < 2`, hands delay `0` to the host on the same input. -/
theorem setInterval_reads_past_lone_callback :
    (setInterval samplePlatform emptyWorld 0 Value.undefined loneCallbackArgs 1).1.trace
        = [Effect.dartSetInterval sampleRecord 0 Trampoline.handlePersistentCallback 7]
      ∧ (setInterval samplePlatform emptyWorld 0 Value.undefined loneCallbackThenString 1).2
        = Completion.threw
          "Failed to execute 'setInterval': parameter 2 (timeout) only can be a number or undefined."
      ∧ (setTimeout samplePlatform emptyWorld 0 Value.undefined loneCallbackArgs 1).1.trace
        = [Effect.dartSetTimeout sampleRecord 0 Trampoline.handleTransientCallback 0]
      ∧ (setTimeout samplePlatform emptyWorld 0 Value.undefined loneCallbackThenString 1).1.trace
        = [Effect.dartSetTimeout sampleRecord 0 Trampoline.handleTransientCallback 0] := by
  decide

/-! ## Scheduling: the host entry point -/

/-- C12: for each of `setTimeout`, `setInterval` and `requestAnimationFrame`, called with a
function as first argument on a context that is not frozen: when the host entry point of the
binding is not registered, the call throws a script error and leaves the world as it was (no
record is registered, nothing is returned); when moreover the delay argument is acceptable,
the error is the one that names the missing host method. -/
theorem missing_host_method_throws (p : Platform) (w : World) (context : CtxRef)
    (thisVal : Value) (args : Nat → Value) (count : Nat) (hcount : 1 ≤ count)
    (hfn : (args 0).isFunctionObject = true)
    (hfrozen : (w.contexts context).freeze = false) :
    (p.dartMethod.setTimeout = none →
        (∃ message : String,
          setTimeout p w context thisVal args count = (w, Completion.threw message))
        ∧ (timeoutDelay p args count ≠ none →
          setTimeout p w context thisVal args count
            = (w, Completion.threw
                "Failed to execute 'setTimeout': dart method (setTimeout) is not registered.")))
      ∧ (p.dartMethod.setInterval = none →
        (∃ message : String,
          setInterval p w context thisVal args count = (w, Completion.threw message))
        ∧ (intervalDelay p args ≠ none →
          setInterval p w context thisVal args count
            = (w, Completion.threw
                "Failed to execute 'setInterval': dart method (setInterval) is not registered.")))
      ∧ (p.dartMethod.requestAnimationFrame = none →
        requestAnimationFrame p w context thisVal args count
          = (w, Completion.threw
              "Failed to execute 'requestAnimationFrame': dart method (requestAnimationFrame) is not registered.")) := by
  refine ⟨?_, ?_, ?_⟩
  · intro hnone
    rw [setTimeout_past_checks p w context thisVal args count hcount hfn hfrozen]
    cases hd : timeoutDelay p args count with
    | none => simp
    | some t => simp [hnone]
  · intro hnone
    rw [setInterval_past_checks p w context thisVal args count hcount hfn hfrozen]
    cases hd : intervalDelay p args with
    | none => simp
    | some t => simp [hnone]
  · intro hnone
    rw [requestAnimationFrame_past_checks p w context thisVal args count hcount hfn hfrozen]
    simp [hnone]

theorem missing_host_method_throws_witness :
    1 ≤ 2 ∧ (sampleArgs 0).isFunctionObject = true ∧ (liveWorld.contexts 0).freeze = false
      ∧ barePlatform.dartMethod.setTimeout = none
      ∧ setTimeout barePlatform liveWorld 0 Value.undefined sampleArgs 2
          = (liveWorld, Completion.threw
              "Failed to execute 'setTimeout': dart method (setTimeout) is not registered.") :=
  ⟨by decide, by decide, by decide, rfl,
    ((missing_host_method_throws barePlatform liveWorld 0 Value.undefined sampleArgs 2
      (by decide) (by decide) (by decide)).1 rfl).2 (by decide)⟩

/-- C13: for each of `setTimeout`, `setInterval` and `requestAnimationFrame`, called with a
function as first argument and an acceptable delay on a context that is not frozen, with the
host entry point registered: when the host call answers the failure sentinel `-1`, the binding
throws a script error and returns no value.  The record it registered before the host call
stays in the registry. -/
theorem host_failure_sentinel_throws (p : Platform) (w : World) (context : CtxRef)
    (thisVal : Value) (args : Nat → Value) (count : Nat) (hcount : 1 ≤ count)
    (hfn : (args 0).isFunctionObject = true)
    (hfrozen : (w.contexts context).freeze = false) :
    (∀ (dart : List Effect → BridgeCallbackContext → Int → Trampoline → Int → Int)
        (timeout : Int),
        p.dartMethod.setTimeout = some dart → timeoutDelay p args count = some timeout →
        wrapInt32 (dart w.trace ⟨context, some (args 0)⟩ w.nextIndex
          Trampoline.handleTransientCallback timeout) = -1 →
        setTimeout p w context thisVal args count
          = (w.scheduled ⟨context, some (args 0)⟩
              (Effect.dartSetTimeout ⟨context, some (args 0)⟩
                w.nextIndex Trampoline.handleTransientCallback timeout),
              Completion.threw
                "Failed to execute 'setTimeout': dart method (setTimeout) execute failed"))
      ∧ (∀ (dart : List Effect → BridgeCallbackContext → Int → Trampoline → Int → Int)
        (delay : Int),
        p.dartMethod.setInterval = some dart → intervalDelay p args = some delay →
        wrapInt32 (dart w.trace ⟨context, some (args 0)⟩ w.nextIndex
          Trampoline.handlePersistentCallback delay) = -1 →
        setInterval p w context thisVal args count
          = (w.scheduled ⟨context, some (args 0)⟩
              (Effect.dartSetInterval ⟨context, some (args 0)⟩
                w.nextIndex Trampoline.handlePersistentCallback delay),
              Completion.threw
                "Failed to execute 'setInterval': dart method (setInterval) got unexpected error."))
      ∧ (∀ (dart : List Effect → BridgeCallbackContext → Int → Trampoline → Int),
        p.dartMethod.requestAnimationFrame = some dart →
        wrapInt32 (dart w.trace ⟨context, some (args 0)⟩ w.nextIndex
          Trampoline.handleRAFTransientCallback) = -1 →
        requestAnimationFrame p w context thisVal args count
          = (w.scheduled ⟨context, some (args 0)⟩
              (Effect.dartRequestAnimationFrame ⟨context, some (args 0)⟩
                w.nextIndex Trampoline.handleRAFTransientCallback),
              Completion.threw
                "Failed to execute 'requestAnimationFrame': dart method (requestAnimationFrame) executed with unexpected error.")) := by
  refine ⟨?_, ?_, ?_⟩
  · intro dart timeout hdart hdelay hid
    rw [setTimeout_past_checks p w context thisVal args count hcount hfn hfrozen]
    simp [hdart, hdelay, hid]
  · intro dart delay hdart hdelay hid
    rw [setInterval_past_checks p w context thisVal args count hcount hfn hfrozen]
    simp [hdart, hdelay, hid]
  · intro dart hdart hid
    rw [requestAnimationFrame_past_checks p w context thisVal args count hcount hfn hfrozen]
    simp [hdart, hid]

theorem host_failure_sentinel_throws_witness :
    1 ≤ 2 ∧ (sampleArgs 0).isFunctionObject = true ∧ (liveWorld.contexts 0).freeze = false
      ∧ (requestAnimationFrame failingPlatform liveWorld 0 Value.undefined sampleArgs 2).2
          = Completion.threw
              "Failed to execute 'requestAnimationFrame': dart method (requestAnimationFrame) executed with unexpected error." :=
  ⟨by decide, by decide, by decide,
    congrArg Prod.snd
      ((host_failure_sentinel_throws failingPlatform liveWorld 0 Value.undefined sampleArgs 2
        (by decide) (by decide) (by decide)).2.2 (fun _ _ _ _ => -1) rfl (by decide))⟩

/-- C14: on a successful schedule call (a function as first argument, an acceptable delay, a
context that is not frozen, the host entry point registered, a host answer other than `-1`):
exactly one record is added to the registry, tied to the current context and to the function
supplied, at the position that is its registry index; the host entry point is called exactly
once, with that record, that registry index, the trampoline of the binding and, for the
timers, the delay; and the number returned to script is that same registry index. -/
theorem successful_schedule_returns_registry_index (p : Platform) (w : World)
    (context : CtxRef) (thisVal : Value) (args : Nat → Value) (count : Nat)
    (hcount : 1 ≤ count) (hfn : (args 0).isFunctionObject = true)
    (hfrozen : (w.contexts context).freeze = false) :
    (∀ (dart : List Effect → BridgeCallbackContext → Int → Trampoline → Int → Int)
        (timeout : Int),
        p.dartMethod.setTimeout = some dart → timeoutDelay p args count = some timeout →
        wrapInt32 (dart w.trace ⟨context, some (args 0)⟩ w.nextIndex
          Trampoline.handleTransientCallback timeout) ≠ -1 →
        setTimeout p w context thisVal args count
          = ({ w with
                contextList := w.contextList ++ [⟨context, some (args 0)⟩]
                trace := w.trace ++ [Effect.dartSetTimeout ⟨context, some (args 0)⟩
                  w.nextIndex Trampoline.handleTransientCallback
                  timeout] },
              Completion.returned (Value.number (Double.ofInt32 w.nextIndex))))
      ∧ (∀ (dart : List Effect → BridgeCallbackContext → Int → Trampoline → Int → Int)
        (delay : Int),
        p.dartMethod.setInterval = some dart → intervalDelay p args = some delay →
        wrapInt32 (dart w.trace ⟨context, some (args 0)⟩ w.nextIndex
          Trampoline.handlePersistentCallback delay) ≠ -1 →
        setInterval p w context thisVal args count
          = ({ w with
                contextList := w.contextList ++ [⟨context, some (args 0)⟩]
                trace := w.trace ++ [Effect.dartSetInterval ⟨context, some (args 0)⟩
                  w.nextIndex Trampoline.handlePersistentCallback
                  delay] },
              Completion.returned (Value.number (Double.ofInt32 w.nextIndex))))
      ∧ (∀ (dart : List Effect → BridgeCallbackContext → Int → Trampoline → Int),
        p.dartMethod.requestAnimationFrame = some dart →
        wrapInt32 (dart w.trace ⟨context, some (args 0)⟩ w.nextIndex
          Trampoline.handleRAFTransientCallback) ≠ -1 →
        requestAnimationFrame p w context thisVal args count
          = ({ w with
                contextList := w.contextList ++ [⟨context, some (args 0)⟩]
                trace := w.trace ++ [Effect.dartRequestAnimationFrame
                  ⟨context, some (args 0)⟩ w.nextIndex
                  Trampoline.handleRAFTransientCallback] },
              Completion.returned (Value.number (Double.ofInt32 w.nextIndex))))
      ∧ w.nextIndex = (w.contextList.length : Int)
      ∧ (w.contextList ++ [(⟨context, some (args 0)⟩ : BridgeCallbackContext)])[
            w.contextList.length]?
          = some ⟨context, some (args 0)⟩ := by
  refine ⟨?_, ?_, ?_, rfl, by simp⟩
  · intro dart timeout hdart hdelay hid
    rw [setTimeout_past_checks p w context thisVal args count hcount hfn hfrozen]
    simp [hdart, hdelay, hid, World.scheduled]
  · intro dart delay hdart hdelay hid
    rw [setInterval_past_checks p w context thisVal args count hcount hfn hfrozen]
    simp [hdart, hdelay, hid, World.scheduled]
  · intro dart hdart hid
    rw [requestAnimationFrame_past_checks p w context thisVal args count hcount hfn hfrozen]
    simp [hdart, hid, World.scheduled]

theorem successful_schedule_returns_registry_index_witness :
    1 ≤ 2 ∧ (sampleArgs 0).isFunctionObject = true ∧ (liveWorld.contexts 0).freeze = false
      ∧ liveWorld.nextIndex = 1
      ∧ (setInterval samplePlatform liveWorld 0 Value.undefined sampleArgs 2).2
          = Completion.returned (Value.number (Double.ofInt32 liveWorld.nextIndex))
      ∧ dartSchedules
          (setInterval samplePlatform liveWorld 0 Value.undefined sampleArgs 2).1.trace
          = [Effect.dartSetInterval sampleRecord 1 Trampoline.handlePersistentCallback 10] :=
  ⟨by decide, by decide, by decide, by decide,
    congrArg Prod.snd
      ((successful_schedule_returns_registry_index samplePlatform liveWorld 0 Value.undefined
        sampleArgs 2 (by decide) (by decide) (by decide)).2.1 (fun _ _ _ _ _ => 5) 10 rfl
        (by decide) (by decide)),
    by decide⟩

/-! ## Cancelling -/

/-- C15, refuted as stated: on a frozen context `clearTimeout` and `cancelAnimationFrame`
called with a string as handle raise no input error: they return undefined. -/
theorem frozen_cancel_accepts_any_handle :
    (frozenWorld.contexts 0).freeze = true
      ∧ (stringArgs 0).getNumber = none
      ∧ (clearTimeout samplePlatform frozenWorld 0 Value.undefined stringArgs 1).2
          = Completion.returned Value.undefined
      ∧ (cancelAnimationFrame samplePlatform frozenWorld 0 Value.undefined stringArgs 1).2
          = Completion.returned Value.undefined := by
  decide

/-- C15, amended: for `clearTimeout` (bound also under the name `clearInterval`) and
`cancelAnimationFrame`, when the handle argument is present but is not a number: on a context
that is not frozen the call throws the input error and leaves the world as it was; on a frozen
context it returns undefined with only a log line; in both cases the host cancel entry point
is not called. -/
theorem non_number_handle_is_rejected (p : Platform) (w : World) (context : CtxRef)
    (thisVal : Value) (args : Nat → Value) (count : Nat) (hcount : 1 ≤ count)
    (hhandle : (args 0).getNumber = none) :
    ((w.contexts context).freeze = false →
        clearTimeout p w context thisVal args count
          = (w, Completion.threw
              "Failed to execute 'clearTimeout': parameter 1  is not an timer kind.")
        ∧ cancelAnimationFrame p w context thisVal args count
          = (w, Completion.threw
              "Failed to execute 'cancelAnimationFrame': parameter 1 (timer) is not a timer kind."))
      ∧ ((w.contexts context).freeze = true →
        clearTimeout p w context thisVal args count
          = (w.emit (Effect.log "Failed to execute 'clearTimeout': context is freeze"),
              Completion.returned Value.undefined)
        ∧ cancelAnimationFrame p w context thisVal args count
          = (w.emit (Effect.log "Failed to execute 'cancelAnimationFrame': context is freeze"),
              Completion.returned Value.undefined))
      ∧ dartCancels (clearTimeout p w context thisVal args count).1.trace
          = dartCancels w.trace
      ∧ dartCancels (cancelAnimationFrame p w context thisVal args count).1.trace
          = dartCancels w.trace
      ∧ bindTimer.lookup "clearTimeout" = some Binding.clearTimeout
      ∧ bindTimer.lookup "clearInterval" = some Binding.clearTimeout
      ∧ bindTimer.lookup "cancelAnimationFrame" = some Binding.cancelAnimationFrame := by
  have h0 : ¬ count ≤ 0 := by omega
  refine ⟨?_, ?_, ?_, ?_, by decide, by decide, by decide⟩
  · intro hfrozen
    exact ⟨by simp [clearTimeout, h0, hfrozen, hhandle],
      by simp [cancelAnimationFrame, h0, hfrozen, hhandle]⟩
  · intro hfrozen
    exact ⟨by simp [clearTimeout, h0, hfrozen], by simp [cancelAnimationFrame, h0, hfrozen]⟩
  · cases hfrozen : (w.contexts context).freeze <;>
      simp [clearTimeout, h0, hfrozen, hhandle, dartCancels, World.emit, Effect.isDartCancel]
  · cases hfrozen : (w.contexts context).freeze <;>
      simp [cancelAnimationFrame, h0, hfrozen, hhandle, dartCancels, World.emit,
        Effect.isDartCancel]

theorem non_number_handle_is_rejected_witness :
    1 ≤ 1 ∧ (stringArgs 0).getNumber = none ∧ (liveWorld.contexts 0).freeze = false
      ∧ clearTimeout samplePlatform liveWorld 0 Value.undefined stringArgs 1
          = (liveWorld, Completion.threw
              "Failed to execute 'clearTimeout': parameter 1  is not an timer kind.") :=
  ⟨by decide, by decide, by decide,
    ((non_number_handle_is_rejected samplePlatform liveWorld 0 Value.undefined stringArgs 1
      (by decide) (by decide)).1 (by decide)).1⟩

/-- C16, refuted as stated: on a frozen context, with the host cancel entry points
registered, `clearTimeout` and `cancelAnimationFrame` called with a number as handle make no
call to the host. -/
theorem frozen_cancel_is_not_forwarded :
    samplePlatform.dartMethod.clearTimeout = true
      ∧ samplePlatform.dartMethod.cancelAnimationFrame = true
      ∧ (frozenWorld.contexts 0).freeze = true
      ∧ numberArgs 0 = Value.number (Double.finite 3)
      ∧ dartCancels (clearTimeout samplePlatform frozenWorld 0 Value.undefined numberArgs
          1).1.trace = []
      ∧ dartCancels (cancelAnimationFrame samplePlatform frozenWorld 0 Value.undefined
          numberArgs 1).1.trace = [] := by
  decide

/-- C16, amended: for `clearTimeout` and `cancelAnimationFrame` with the host cancel entry
point registered, on a context that is not frozen: whenever the handle argument is a number,
for every handle value, known or not, the call makes exactly one call to the host cancel entry
point, with the index of the current context and the handle converted to `int32_t`, raises no
error and returns undefined. -/
theorem number_handle_is_forwarded (p : Platform) (w : World) (context : CtxRef)
    (thisVal : Value) (args : Nat → Value) (count : Nat) (d : Double) (hcount : 1 ≤ count)
    (hfrozen : (w.contexts context).freeze = false)
    (hhandle : args 0 = Value.number d) :
    (p.dartMethod.clearTimeout = true →
        clearTimeout p w context thisVal args count
          = (w.emit (Effect.dartClearTimeout (w.contexts context).contextIndex (p.toInt32 d)),
              Completion.returned Value.undefined))
      ∧ (p.dartMethod.cancelAnimationFrame = true →
        cancelAnimationFrame p w context thisVal args count
          = (w.emit (Effect.dartCancelAnimationFrame (w.contexts context).contextIndex
                (p.toInt32 d)),
              Completion.returned Value.undefined)) := by
  have h0 : ¬ count ≤ 0 := by omega
  exact ⟨fun hreg => by simp [clearTimeout, h0, hfrozen, hhandle, hreg, Value.getNumber],
    fun hreg => by simp [cancelAnimationFrame, h0, hfrozen, hhandle, hreg, Value.getNumber]⟩

theorem number_handle_is_forwarded_witness :
    1 ≤ 1 ∧ (liveWorld.contexts 0).freeze = false
      ∧ numberArgs 0 = Value.number (Double.finite 3)
      ∧ samplePlatform.dartMethod.clearTimeout = true
      ∧ clearTimeout samplePlatform liveWorld 0 Value.undefined numberArgs 1
          = (liveWorld.emit (Effect.dartClearTimeout (liveWorld.contexts 0).contextIndex
                (samplePlatform.toInt32 (Double.finite 3))),
              Completion.returned Value.undefined) :=
  ⟨by decide, by decide, by decide, by decide,
    (number_handle_is_forwarded samplePlatform liveWorld 0 Value.undefined numberArgs 1
      (Double.finite 3) (by decide) (by decide) (by decide)).1 (by decide)⟩

/-! ## One-shot and repeating trampolines -/

/-- C20: for every world (every context state), record, context index, result and errmsg,
`handleTransientCallback` ends in the same world and in the same way as
`handlePersistentCallback`, and `handleRAFTransientCallback` as `handleRAFPersistentCallback`:
the same callback invocations, the same error reports, the same registry. -/
theorem transient_equals_persistent (w : World) (obj : BridgeCallbackContext)
    (contextIndex : Int) (result : Double) (errmsg : Option String) :
    handleTransientCallback w obj contextIndex errmsg
        = handlePersistentCallback w obj contextIndex errmsg
      ∧ handleRAFTransientCallback w obj contextIndex result errmsg
        = handleRAFPersistentCallback w obj contextIndex result errmsg :=
  ⟨rfl, rfl⟩


/-! ## The delay of `setTimeout` against that of `setInterval` -/

theorem delays_agree_from_two_arguments (p : Platform) (args : Nat → Value) (count : Nat)
    (hcount : 2 ≤ count) : timeoutDelay p args count = intervalDelay p args := by
  have h : ¬ count < 2 := by omega
  simp [timeoutDelay, intervalDelay, h]

theorem delays_agree_on_undefined (p : Platform) (args : Nat → Value) (count : Nat)
    (h : args 1 = Value.undefined) : timeoutDelay p args count = intervalDelay p args := by
  simp [timeoutDelay, intervalDelay, h, Value.isUndefined]

/-- C21, at the failing input: only the callback is supplied (`count = 1`) and the memory
after it holds the number `7`, or a string.  `setTimeout` computes delay `0` in both cases and
returns a handle; `setInterval` computes delay `7` in the first and raises the delay
input error in the second: the two bindings do not compute the same delay, and `setInterval`
does not hand `0` to the host whatever lies beyond the supplied arguments. -/
theorem lone_callback_delays_differ :
    (loneCallbackArgs 0).isFunctionObject = true
      ∧ (emptyWorld.contexts 0).freeze = false
      ∧ timeoutDelay samplePlatform loneCallbackArgs 1 = some 0
      ∧ intervalDelay samplePlatform loneCallbackArgs = some 7
      ∧ timeoutDelay samplePlatform loneCallbackThenString 1 = some 0
      ∧ intervalDelay samplePlatform loneCallbackThenString = none
      ∧ dartSchedules
          (setTimeout samplePlatform emptyWorld 0 Value.undefined loneCallbackArgs 1).1.trace
        = [Effect.dartSetTimeout sampleRecord 0 Trampoline.handleTransientCallback 0]
      ∧ dartSchedules
          (setInterval samplePlatform emptyWorld 0 Value.undefined loneCallbackArgs 1).1.trace
        = [Effect.dartSetInterval sampleRecord 0 Trampoline.handlePersistentCallback 7]
      ∧ (setTimeout samplePlatform emptyWorld 0 Value.undefined loneCallbackThenString 1).2
        = Completion.returned (Value.number (Double.ofInt32 0))
      ∧ (setInterval samplePlatform emptyWorld 0 Value.undefined loneCallbackThenString 1).2
        = Completion.threw
          "Failed to execute 'setInterval': parameter 2 (timeout) only can be a number or undefined."
      ∧ dartSchedules
          (setInterval samplePlatform emptyWorld 0 Value.undefined loneCallbackThenString
            1).1.trace = [] := by
  decide

/-! ## A null callback together with a host error -/

/-- C22: for each of the four trampolines, on a context that passes the context check, is
valid and is not frozen: when the stored callback is null and the host supplies an errmsg that
is not null, the trampoline returns with exactly one new effect, a report to the error channel
of the owning context whose message is the fixed message of the handler, "timer callback is
null" for the timer trampolines and "requestAnimationFrame callback is null" for the
animation-frame ones, and not errmsg: the null check comes before the errmsg check. -/
theorem null_callback_precedes_host_error (w : World) (obj : BridgeCallbackContext)
    (contextIndex : Int) (result : Double) (msg : String)
    (hcheck : w.checkContext obj._context contextIndex = true)
    (hvalid : (w.contexts obj._context).valid = true)
    (hfrozen : (w.contexts obj._context).freeze = false)
    (hnull : obj._callback = none) :
    handlePersistentCallback w obj contextIndex (some msg)
        = (w.emit (Effect.reportError obj._context
            "Failed to trigger callback: timer callback is null."), Completion.returned ())
      ∧ handleTransientCallback w obj contextIndex (some msg)
        = (w.emit (Effect.reportError obj._context
            "Failed to trigger callback: timer callback is null."), Completion.returned ())
      ∧ handleRAFPersistentCallback w obj contextIndex result (some msg)
        = (w.emit (Effect.reportError obj._context
            "Failed to trigger callback: requestAnimationFrame callback is null."),
            Completion.returned ())
      ∧ handleRAFTransientCallback w obj contextIndex result (some msg)
        = (w.emit (Effect.reportError obj._context
            "Failed to trigger callback: requestAnimationFrame callback is null."),
            Completion.returned ())
      ∧ errorReports (handlePersistentCallback w obj contextIndex (some msg)).1.trace
        = errorReports w.trace ++ [Effect.reportError obj._context
            "Failed to trigger callback: timer callback is null."]
      ∧ errorReports (handleRAFPersistentCallback w obj contextIndex result (some msg)).1.trace
        = errorReports w.trace ++ [Effect.reportError obj._context
            "Failed to trigger callback: requestAnimationFrame callback is null."] := by
  simp [handleTransientCallback, handleRAFTransientCallback, handlePersistentCallback,
    handleRAFPersistentCallback, hcheck, hvalid, hfrozen, hnull,
    errorReports_emit_reportError]

theorem null_callback_precedes_host_error_witness :
    liveWorld.checkContext nullRecord._context 0 = true
      ∧ (liveWorld.contexts nullRecord._context).valid = true
      ∧ (liveWorld.contexts nullRecord._context).freeze = false
      ∧ nullRecord._callback = none
      ∧ "host failure" ≠ "Failed to trigger callback: timer callback is null."
      ∧ handleTransientCallback liveWorld nullRecord 0 (some "host failure")
        = (liveWorld.emit (Effect.reportError nullRecord._context
            "Failed to trigger callback: timer callback is null."), Completion.returned ()) :=
  ⟨by decide, by decide, by decide, by decide, by decide,
    (null_callback_precedes_host_error liveWorld nullRecord 0 (Double.finite 0)
      "host failure" (by decide) (by decide) (by decide) (by decide)).2.1⟩

/-! ## The methods of the Event prototype -/

namespace qjs

/-- C23, at the failing input: the property `stopImmediatePropagation` is not on the Event
prototype; the handler `stopImmediatePropagation` is installed under the name
`immediatePropagation`, which is not the name of the handler.  The other two handlers are
installed under their own names. -/
theorem stopImmediatePropagation_is_misnamed :
    Event.prototypeLookup "stopImmediatePropagation" = none
      ∧ Event.prototypeLookup "immediatePropagation"
        = some EventHandler.stopImmediatePropagation
      ∧ Event.m_stopImmediatePropagation.name
        ≠ Event.m_stopImmediatePropagation.handler.name
      ∧ Event.prototypeLookup "stopPropagation" = some EventHandler.stopPropagation
      ∧ Event.prototypeLookup "preventDefault" = some EventHandler.preventDefault
      ∧ Event.prototypeFunctions.map ObjectFunction.name
        = ["stopPropagation", "immediatePropagation", "preventDefault"] := by
  decide

end qjs

end binding
end kraken

namespace webf

open kraken.binding (wrapInt32)

/-! ## The counter and the shared runtime -/

theorem wrapInt32_of_inRange (i : Int) (h1 : -2147483648 ≤ i) (h2 : i ≤ 2147483647) :
    wrapInt32 i = i := by
  unfold kraken.binding.wrapInt32
  omega

theorem ctor_runningContexts (classIdBump : Nat) (g : ThreadState) :
    (ScriptState.ctor classIdBump g).1.runningContexts = wrapInt32 (g.runningContexts + 1) := by
  unfold ScriptState.ctor
  cases h : g.runtime_ <;> simp [h]

theorem ctor_runtime (classIdBump : Nat) (g : ThreadState) :
    (ScriptState.ctor classIdBump g).1.runtime_
      = (match g.runtime_ with
        | none => some g.allocated
        | some rt => some rt) := by
  unfold ScriptState.ctor
  cases h : g.runtime_ <;> simp [h]

theorem ctor_calls (classIdBump : Nat) (g : ThreadState) :
    (ScriptState.ctor classIdBump g).1.calls
      = g.calls ++ (match g.runtime_ with
        | none => firstConstructionCalls classIdBump g.allocated
        | some rt => laterConstructionCalls (some rt) g.allocated) := by
  unfold ScriptState.ctor
  cases h : g.runtime_ <;>
    simp [h, firstConstructionCalls, laterConstructionCalls]

theorem ctor_object (classIdBump : Nat) (g : ThreadState) :
    (ScriptState.ctor classIdBump g).2.ctx_invalid_ = false := by
  simp [ScriptState.ctor, ctxInvalidInitially]

theorem dtor_runningContexts (g : ThreadState) (o : ScriptState) :
    (ScriptState.dtor g o).1.runningContexts = wrapInt32 (g.runningContexts - 1) := by
  unfold ScriptState.dtor
  by_cases h : wrapInt32 (g.runningContexts - 1) = 0 <;> simp [h]

theorem dtor_runtime (g : ThreadState) (o : ScriptState) :
    (ScriptState.dtor g o).1.runtime_
      = (if wrapInt32 (g.runningContexts - 1) = 0 then none else g.runtime_) := by
  unfold ScriptState.dtor
  by_cases h : wrapInt32 (g.runningContexts - 1) = 0 <;> simp [h]

theorem dtor_calls (g : ThreadState) (o : ScriptState) :
    (ScriptState.dtor g o).1.calls
      = g.calls ++ contextTeardownCalls o.ctx_ g.runtime_
          ++ (if wrapInt32 (g.runningContexts - 1) = 0 then sharedTeardownCalls g.runtime_
              else []) := by
  unfold ScriptState.dtor
  by_cases h : wrapInt32 (g.runningContexts - 1) = 0 <;>
    simp [h, contextTeardownCalls, sharedTeardownCalls]

theorem dtor_object (g : ThreadState) (o : ScriptState) :
    (ScriptState.dtor g o).2 = { ctx_ := none, ctx_invalid_ := true } := by
  simp [ScriptState.dtor]

/-! ## Invariants of a thread -/

theorem step_live_lt (classIdBump : Nat) (s : Process) (op : Op)
    (h : ∀ k ∈ s.live, k < s.objects.length) :
    ∀ k ∈ (s.step classIdBump op).live, k < (s.step classIdBump op).objects.length := by
  cases op with
  | construct =>
    intro k hk
    simp only [Process.step, List.mem_append, List.mem_singleton, List.length_append,
      List.length_singleton] at hk ⊢
    rcases hk with hk | hk
    · have := h k hk
      omega
    · omega
  | destruct j =>
    intro k hk
    unfold Process.step at hk ⊢
    by_cases hj : j ∈ s.live
    · cases ho : s.objects[j]? with
      | none =>
        simp only [hj, ho, if_true] at hk ⊢
        exact h k hk
      | some o =>
        simp only [hj, ho, if_true] at hk ⊢
        simp only [List.length_set]
        exact h k (List.mem_of_mem_erase hk)
    · simp only [hj, if_false] at hk ⊢
      exact h k hk

theorem run_live_lt (classIdBump : Nat) (ops : List Op) :
    ∀ s : Process, (∀ k ∈ s.live, k < s.objects.length) →
      ∀ k ∈ (s.run classIdBump ops).live, k < (s.run classIdBump ops).objects.length := by
  induction ops with
  | nil => intro s h; simpa [Process.run] using h
  | cons op ops ih =>
    intro s h
    have := ih (s.step classIdBump op) (step_live_lt classIdBump s op h)
    simpa [Process.run] using this

theorem step_counter (classIdBump : Nat) (s : Process) (op : Op)
    (hlt : ∀ k ∈ s.live, k < s.objects.length)
    (hcount : s.thread.runningContexts = (s.live.length : Int))
    (hrt : s.thread.runtime_ = none ↔ s.live = [])
    (hbound : s.live.length + 1 < 2147483648) :
    (s.step classIdBump op).thread.runningContexts
        = ((s.step classIdBump op).live.length : Int)
      ∧ ((s.step classIdBump op).thread.runtime_ = none ↔ (s.step classIdBump op).live = [])
      ∧ (s.step classIdBump op).live.length ≤ s.live.length + 1 := by
  cases op with
  | construct =>
    simp only [Process.step, ctor_runningContexts, ctor_runtime, List.length_append,
      List.length_singleton]
    refine ⟨?_, ?_, le_refl _⟩
    · rw [hcount, wrapInt32_of_inRange _ (by omega) (by omega)]
      push_cast
      rfl
    · cases hr : s.thread.runtime_ <;> simp
  | destruct j =>
    unfold Process.step
    by_cases hj : j ∈ s.live
    · have hjlt := hlt j hj
      have ho : s.objects[j]? = some (s.objects[j]) := List.getElem?_eq_getElem hjlt
      have hpos : 1 ≤ s.live.length := List.length_pos_of_mem hj
      have hlen : (s.live.erase j).length = s.live.length - 1 := List.length_erase_of_mem hj
      have hwrap : wrapInt32 (s.thread.runningContexts - 1) = ((s.live.length - 1 : Nat) : Int) := by
        rw [hcount, wrapInt32_of_inRange _ (by omega) (by omega)]
        omega
      simp only [hj, ho, if_true, dtor_runningContexts, dtor_runtime, hwrap, hlen]
      refine ⟨trivial, ?_, by omega⟩
      by_cases h1 : s.live.length = 1
      · have : s.live.erase j = [] := List.eq_nil_of_length_eq_zero (by omega)
        simp [h1, this]
      · have hne : s.live.erase j ≠ [] := by
          intro h
          have := congrArg List.length h
          simp only [hlen, List.length_nil] at this
          omega
        have hlive : s.live ≠ [] := by
          intro h
          rw [h] at hj
          exact absurd hj (List.not_mem_nil _)
        have hz : ¬ (((s.live.length - 1 : Nat) : Int) = 0) := by omega
        simp [hz, hne, hrt, hlive]
    · simp only [hj, if_false]
      exact ⟨hcount, hrt, by omega⟩

theorem step_destruct_live (classIdBump : Nat) (s : Process) (k : Nat) (o : ScriptState)
    (hk : k ∈ s.live) (ho : s.objects[k]? = some o) :
    s.step classIdBump (Op.destruct k)
      = { thread := (ScriptState.dtor s.thread o).1
          objects := s.objects.set k (ScriptState.dtor s.thread o).2
          live := s.live.erase k } := by
  simp [Process.step, hk, ho]

theorem step_markedInvalid (classIdBump : Nat) (s : Process) (op : Op) (k : Nat)
    (h : s.markedInvalid k = true) : (s.step classIdBump op).markedInvalid k = true := by
  unfold Process.markedInvalid at h ⊢
  cases hk : s.objects[k]? with
  | none => simp [hk] at h
  | some o =>
    simp only [hk] at h
    have hlt : k < s.objects.length := by
      by_contra hge
      have : s.objects[k]? = none := List.getElem?_eq_none (by omega)
      simp [this] at hk
    cases op with
    | construct =>
      simp only [Process.step]
      rw [List.getElem?_append_left hlt, hk]
      exact h
    | destruct j =>
      unfold Process.step
      by_cases hj : j ∈ s.live
      · cases hoj : s.objects[j]? with
        | none => simp only [hj, hoj, if_true, hk]; exact h
        | some oj =>
          simp only [hj, hoj, if_true]
          by_cases hjk : j = k
          · subst hjk
            simp [List.getElem?_set, hlt, dtor_object]
          · simp [List.getElem?_set, hjk, hk, h]
      · simp only [hj, if_false, hk]
        exact h

theorem run_markedInvalid (classIdBump : Nat) (ops : List Op) (k : Nat) :
    ∀ s : Process, s.markedInvalid k = true →
      (s.run classIdBump ops).markedInvalid k = true := by
  induction ops with
  | nil => intro s h; simpa [Process.run] using h
  | cons op ops ih =>
    intro s h
    have := ih (s.step classIdBump op) (step_markedInvalid classIdBump s op k h)
    simpa [Process.run] using this

theorem run_counter_room (classIdBump : Nat) (ops : List Op) :
    ∀ s : Process, (∀ k ∈ s.live, k < s.objects.length) →
      s.thread.runningContexts = (s.live.length : Int) →
      (s.thread.runtime_ = none ↔ s.live = []) →
      s.live.length < 2147483648 →
      (∀ n, n < ops.length →
        (s.run classIdBump (ops.take n)).live.length + 1 < 2147483648) →
      (s.run classIdBump ops).thread.runningContexts
          = ((s.run classIdBump ops).live.length : Int)
        ∧ ((s.run classIdBump ops).thread.runtime_ = none
            ↔ (s.run classIdBump ops).live = [])
        ∧ (s.run classIdBump ops).live.length < 2147483648 := by
  induction ops with
  | nil =>
    intro s _ hcount hrt hlen _
    exact ⟨by simpa [Process.run] using hcount, by simpa [Process.run] using hrt,
      by simpa [Process.run] using hlen⟩
  | cons op ops ih =>
    intro s hlt hcount hrt _ hroom
    have h0 : s.live.length + 1 < 2147483648 := by
      have := hroom 0 (by simp)
      simpa [Process.run] using this
    have hs := step_counter classIdBump s op hlt hcount hrt h0
    have hnext : ∀ n, n < ops.length →
        ((s.step classIdBump op).run classIdBump (ops.take n)).live.length + 1
          < 2147483648 := by
      intro n hn
      have := hroom (n + 1) (by simp [hn])
      simpa [Process.run] using this
    have := ih (s.step classIdBump op) (step_live_lt classIdBump s op hlt) hs.1 hs.2.1
      (by omega) hnext
    simpa [Process.run] using this

theorem run_constructions (classIdBump : Nat) (n : Nat) :
    ∀ (s : Process) (c : Int), s.thread.runningContexts = wrapInt32 c →
      (s.run classIdBump (List.replicate n Op.construct)).thread.runningContexts
          = wrapInt32 (c + n)
        ∧ (s.run classIdBump (List.replicate n Op.construct)).live.length
          = s.live.length + n := by
  induction n with
  | zero =>
    intro s c h
    exact ⟨by simpa [Process.run] using h, by simp [Process.run]⟩
  | succ n ih =>
    intro s c h
    have hstep : (s.step classIdBump Op.construct).thread.runningContexts
        = wrapInt32 (c + 1) := by
      simp only [Process.step, ctor_runningContexts, h]
      unfold kraken.binding.wrapInt32
      omega
    have := ih (s.step classIdBump Op.construct) (c + 1) hstep
    have hlen : (s.step classIdBump Op.construct).live.length = s.live.length + 1 := by
      simp [Process.step]
    rw [List.replicate_succ]
    simp only [Process.run, List.foldl_cons] at this ⊢
    refine ⟨?_, ?_⟩
    · rw [this.1]
      push_cast
      congr 1
      omega
    · rw [this.2, hlen]
      omega

/-- C18, refuted as stated: after 2^31 constructions and no destruction, 2^31 contexts are
live and the `int32_t` counter `runningContexts` has wrapped to -2^31: it does not equal the
number of live contexts. -/
theorem counter_wraps_after_many_constructions :
    (Process.initial.run 0 (List.replicate 2147483648 Op.construct)).live.length = 2147483648
      ∧ (Process.initial.run 0
          (List.replicate 2147483648 Op.construct)).thread.runningContexts = -2147483648
      ∧ (Process.initial.run 0
          (List.replicate 2147483648 Op.construct)).thread.runningContexts
        ≠ ((Process.initial.run 0
          (List.replicate 2147483648 Op.construct)).live.length : Int) := by
  have h := run_constructions 0 2147483648 Process.initial 0 (by decide)
  obtain ⟨h1, h2⟩ := h
  have h3 : (Process.initial.run 0 (List.replicate 2147483648 Op.construct)).live.length
      = 2147483648 := by
    rw [h2]
    rfl
  have h4 : (Process.initial.run 0
      (List.replicate 2147483648 Op.construct)).thread.runningContexts = -2147483648 := by
    rw [h1]
    decide
  refine ⟨h3, h4, ?_⟩
  rw [h4, h3]
  decide

/-- C18, amended: over every sequence of constructions and destructions of `ScriptState` on
one thread (a destruction is applied to a live context) in which every step starts with fewer
than 2^31 - 1 live contexts, so that the `int32_t` counter does not wrap, in the state reached:
`runningContexts` equals the number of live contexts; `runtime_` is non-null exactly when that
number is positive; a construction made next creates the runtime and initialises the shared
names and properties exactly when no context is live, and otherwise only updates the stack top
and creates its context; a destruction made next frees its context and runs the garbage
collector, and disposes the shared factories and frees the runtime exactly when it destroys
the only live context. -/
theorem counter_tracks_live_contexts (classIdBump : Nat) (ops : List Op)
    (hroom : ∀ n, n < ops.length →
      (Process.initial.run classIdBump (ops.take n)).live.length + 1 < 2147483648) :
    (Process.initial.run classIdBump ops).thread.runningContexts
        = ((Process.initial.run classIdBump ops).live.length : Int)
      ∧ ((Process.initial.run classIdBump ops).thread.runtime_ ≠ none
          ↔ 0 < (Process.initial.run classIdBump ops).live.length)
      ∧ ((Process.initial.run classIdBump ops).step classIdBump Op.construct).thread.calls
          = (Process.initial.run classIdBump ops).thread.calls
            ++ (if (Process.initial.run classIdBump ops).live.length = 0 then
                  firstConstructionCalls classIdBump
                    (Process.initial.run classIdBump ops).thread.allocated
                else
                  laterConstructionCalls (Process.initial.run classIdBump ops).thread.runtime_
                    (Process.initial.run classIdBump ops).thread.allocated)
      ∧ (∀ k ∈ (Process.initial.run classIdBump ops).live, ∃ ctx : Option Nat,
          ((Process.initial.run classIdBump ops).step classIdBump
              (Op.destruct k)).thread.calls
            = (Process.initial.run classIdBump ops).thread.calls
              ++ contextTeardownCalls ctx (Process.initial.run classIdBump ops).thread.runtime_
              ++ (if (Process.initial.run classIdBump ops).live.length = 1 then
                    sharedTeardownCalls (Process.initial.run classIdBump ops).thread.runtime_
                  else []))
      ∧ (∀ (rt : Option Nat) (ctx : Nat) (c : Call), c ∈ laterConstructionCalls rt ctx →
          c = Call.JS_UpdateStackTop rt ∨ c = Call.JS_NewContext rt (some ctx))
      ∧ (∀ (ctx rt : Option Nat) (c : Call), c ∈ contextTeardownCalls ctx rt →
          c = Call.JS_FreeContext ctx ∨ c = Call.JS_RunGC rt) := by
  have hlt := run_live_lt classIdBump ops Process.initial (by simp [Process.initial])
  obtain ⟨hcount, hrt, hlen⟩ := run_counter_room classIdBump ops Process.initial
    (by simp [Process.initial]) (by simp [Process.initial]) (by simp [Process.initial])
    (by simp [Process.initial]) hroom
  generalize Process.initial.run classIdBump ops = s at hlt hcount hrt hlen
  refine ⟨hcount, ?_, ?_, ?_, ?_, ?_⟩
  · rw [Ne, hrt, List.length_pos]
  · simp only [Process.step, ctor_calls]
    cases hr : s.thread.runtime_ with
    | none =>
      have : s.live = [] := hrt.mp hr
      simp [this]
    | some rt =>
      have : s.live ≠ [] := fun h => by
        have := hrt.mpr h
        rw [hr] at this
        exact Option.noConfusion this
      have hne : s.live.length ≠ 0 := fun h => this (List.eq_nil_of_length_eq_zero h)
      simp [hne]
  · intro k hk
    have hklt := hlt k hk
    have ho : s.objects[k]? = some (s.objects[k]) := List.getElem?_eq_getElem hklt
    have hpos : 1 ≤ s.live.length := List.length_pos_of_mem hk
    refine ⟨(s.objects[k]).ctx_, ?_⟩
    rw [step_destruct_live classIdBump s k _ hk ho]
    simp only [dtor_calls]
    have hw : wrapInt32 (s.thread.runningContexts - 1) = ((s.live.length : Int) - 1) := by
      rw [hcount, wrapInt32_of_inRange _ (by omega) (by omega)]
    rw [hw]
    by_cases h1 : s.live.length = 1
    · simp [h1]
    · have : ¬ ((s.live.length : Int) - 1 = 0) := by omega
      simp [h1, this]
  · intro rt ctx c hc
    simpa [laterConstructionCalls] using hc
  · intro ctx rt c hc
    simpa [contextTeardownCalls] using hc

theorem counter_tracks_live_contexts_witness :
    (∀ n, n < isValidTestOps.length →
        (Process.initial.run 0 (isValidTestOps.take n)).live.length + 1 < 2147483648)
      ∧ (Process.initial.run 0 isValidTestOps).thread.runningContexts
          = ((Process.initial.run 0 isValidTestOps).live.length : Int)
      ∧ (Process.initial.run 0 isValidTestOps).live.length = 1 :=
  ⟨by decide, (counter_tracks_live_contexts 0 isValidTestOps (by decide)).1, by decide⟩

theorem reportsValid_of_markedInvalid (s : Process) (k : Nat)
    (h : s.markedInvalid k = true) : s.reportsValid k = false := by
  unfold Process.markedInvalid at h
  unfold Process.reportsValid
  cases hk : s.objects[k]? with
  | none => rfl
  | some o =>
    simp only [hk] at h
    simp [ScriptState.isValid, h]

theorem ctor_object_eq (classIdBump : Nat) (g : ThreadState) :
    (ScriptState.ctor classIdBump g).2
      = { ctx_ := some (match g.runtime_ with
            | none => g.allocated + 1
            | some _ => g.allocated)
          ctx_invalid_ := false } := by
  unfold ScriptState.ctor
  cases h : g.runtime_ <;> simp [h, ctxInvalidInitially]

/-- C19: in the state reached by any sequence of constructions and destructions, a context
constructed next is fully constructed and reports valid: the shared runtime is non-null, the
new script state holds a context that the call `JS_NewContext` created in that runtime, and it
is not marked invalid; when the runtime was null, because every earlier context was destroyed
and the runtime torn down, the constructor first creates a fresh runtime with `JS_NewRuntime`.
Destroying a live context marks it invalid and clears its context, so that it no longer
reports valid, and a context that is marked invalid stays so through every later sequence of
steps.  In the test `Context.isValid` (a context is created and destroyed, then a second one
is created) the runtime is null after the destruction and the second context is created in a
fresh runtime and reports valid. -/
theorem valid_until_disposed (classIdBump : Nat) (ops : List Op) :
    (((Process.initial.run classIdBump ops).step classIdBump Op.construct).thread.runtime_
          ≠ none
        ∧ (∃ ctx : Nat,
          ((Process.initial.run classIdBump ops).step classIdBump Op.construct).objects[
              (Process.initial.run classIdBump ops).objects.length]?
            = some { ctx_ := some ctx, ctx_invalid_ := false }
          ∧ Call.JS_NewContext
              ((Process.initial.run classIdBump ops).step classIdBump
                Op.construct).thread.runtime_ (some ctx)
            ∈ ((Process.initial.run classIdBump ops).step classIdBump Op.construct).thread.calls)
        ∧ ((Process.initial.run classIdBump ops).step classIdBump Op.construct).reportsValid
            (Process.initial.run classIdBump ops).objects.length = true
        ∧ ((Process.initial.run classIdBump ops).thread.runtime_ = none →
          ((Process.initial.run classIdBump ops).step classIdBump Op.construct).thread.runtime_
              = some (Process.initial.run classIdBump ops).thread.allocated
            ∧ ((Process.initial.run classIdBump ops).step classIdBump Op.construct).thread.calls
              = (Process.initial.run classIdBump ops).thread.calls
                ++ firstConstructionCalls classIdBump
                  (Process.initial.run classIdBump ops).thread.allocated))
      ∧ (∀ k ∈ (Process.initial.run classIdBump ops).live,
          ((Process.initial.run classIdBump ops).step classIdBump
              (Op.destruct k)).objects[k]? = some { ctx_ := none, ctx_invalid_ := true }
            ∧ ((Process.initial.run classIdBump ops).step classIdBump
              (Op.destruct k)).markedInvalid k = true
            ∧ ((Process.initial.run classIdBump ops).step classIdBump
              (Op.destruct k)).reportsValid k = false)
      ∧ (∀ (k : Nat) (later : List Op),
          (Process.initial.run classIdBump ops).markedInvalid k = true →
          ((Process.initial.run classIdBump ops).run classIdBump later).markedInvalid k = true
            ∧ ((Process.initial.run classIdBump ops).run classIdBump later).reportsValid k
              = false)
      ∧ ((Process.initial.run classIdBump [Op.construct, Op.destruct 0]).thread.runtime_ = none
        ∧ (Process.initial.run classIdBump [Op.construct, Op.destruct 0]).live = []
        ∧ (Process.initial.run classIdBump [Op.construct]).thread.runtime_ = some 0
        ∧ (Process.initial.run classIdBump isValidTestOps).thread.runtime_ = some 2
        ∧ (Process.initial.run classIdBump isValidTestOps).objects
            = [{ ctx_ := none, ctx_invalid_ := true }, { ctx_ := some 3, ctx_invalid_ := false }]
        ∧ (Process.initial.run classIdBump isValidTestOps).reportsValid 0 = false
        ∧ (Process.initial.run classIdBump isValidTestOps).reportsValid 1 = true) := by
  have hlt := run_live_lt classIdBump ops Process.initial (by simp [Process.initial])
  generalize Process.initial.run classIdBump ops = s at hlt
  refine ⟨⟨?_, ?_, ?_, ?_⟩, ?_, ?_, ?_⟩
  · simp only [Process.step, ctor_runtime]
    cases s.thread.runtime_ <;> simp
  · refine ⟨(match s.thread.runtime_ with
        | none => s.thread.allocated + 1
        | some _ => s.thread.allocated), ?_, ?_⟩
    · simp [Process.step, ctor_object_eq]
    · simp only [Process.step, ctor_runtime, ctor_calls]
      cases s.thread.runtime_ <;>
        simp [firstConstructionCalls, laterConstructionCalls]
  · simp [Process.step, Process.reportsValid, ScriptState.isValid, ctor_object_eq]
  · intro hnone
    simp [Process.step, ctor_runtime, ctor_calls, hnone]
  · intro k hk
    have hklt := hlt k hk
    have ho : s.objects[k]? = some (s.objects[k]) := List.getElem?_eq_getElem hklt
    have hobj : (s.step classIdBump (Op.destruct k)).objects[k]?
        = some { ctx_ := none, ctx_invalid_ := true } := by
      rw [step_destruct_live classIdBump s k _ hk ho]
      simp [List.getElem?_set, hklt, dtor_object]
    have hm : (s.step classIdBump (Op.destruct k)).markedInvalid k = true := by
      simp [Process.markedInvalid, hobj]
    exact ⟨hobj, hm, reportsValid_of_markedInvalid _ k hm⟩
  · intro k later h
    have hm := run_markedInvalid classIdBump later k s h
    exact ⟨hm, reportsValid_of_markedInvalid _ k hm⟩
  · refine ⟨rfl, rfl, rfl, rfl, rfl, rfl, rfl⟩

theorem valid_until_disposed_witness :
    (Process.initial.run 0 [Op.construct, Op.destruct 0]).thread.runtime_ = none
      ∧ (Process.initial.run 0 [Op.construct, Op.destruct 0]).markedInvalid 0 = true
      ∧ ((Process.initial.run 0 [Op.construct, Op.destruct 0]).run 0
          [Op.construct]).reportsValid 0 = false
      ∧ ((Process.initial.run 0 [Op.construct, Op.destruct 0]).step 0
          Op.construct).reportsValid
            (Process.initial.run 0 [Op.construct, Op.destruct 0]).objects.length = true
      ∧ ((Process.initial.run 0 [Op.construct, Op.destruct 0]).step 0
          Op.construct).thread.runtime_ = some 2
      ∧ (Process.initial.run 0 isValidTestOps).reportsValid 1 = true :=
  ⟨by decide, by decide,
    ((valid_until_disposed 0 [Op.construct, Op.destruct 0]).2.2.1 0 [Op.construct]
      (by decide)).2,
    (valid_until_disposed 0 [Op.construct, Op.destruct 0]).1.2.2.1,
    ((valid_until_disposed 0 [Op.construct, Op.destruct 0]).1.2.2.2 (by decide)).1.trans
      (by decide),
    by decide⟩

end webf
